import Mathlib

/-!
Verification of the StoryBoard client/server synchronization subsystem.

The development shallowly embeds:
  * the Zustand store (`src/lib/store/index.ts`): entity collections and their
    update / delete / export / load / clear operations;
  * the sync coordinator (`src/contexts/AuthContext.tsx`): `loadUserData`,
    `syncData`, `logout`, and the emptiness heuristic used for reconciliation;
  * the sync endpoint (`src/app/api/data/sync/route.ts`): the relational
    database state, the `GET` handler (read the caller's snapshot) and the
    `POST` handler (delete-then-reinsert save).

Modelling conventions, stated once here:
  * Timestamps are kept in their canonical serialized string form, so the
    source's `new Date(x)` / `toISOString()` round trips are identities and
    `exportData`'s per-entity date conversion maps reduce to the identity.
  * JSON (de)serialization of string-list columns (`JSON.stringify` on insert,
    `parseArrayField` / `JSON.parse` on read) is an identity round trip and the
    columns are modelled as the lists themselves.
  * Entity payload fields that no modelled operation reads or branches on
    (descriptions, colors, avatars, ...) are omitted; one representative
    payload field per entity is kept so that field updates are observable.
    List-valued fields that flow through join tables are kept in full.
  * JavaScript `===` / `!==` on id strings is `==` / `!=` on `String`.
  * Console logging and `localStorage` bookkeeping are side effects outside
    the data model and are dropped.
-/

namespace StoryBoard

/-- Story entity (client type `Story`, server row `stories`). -/
structure Story where
  id : String
  userId : String
  title : String
  status : String
  createdAt : String
  updatedAt : String
  deriving Repr, DecidableEq

/-- Character entity; `personality` stands for the JSON string-list columns. -/
structure Character where
  id : String
  storyId : String
  name : String
  role : String
  personality : List String
  createdAt : String
  updatedAt : String
  deriving Repr, DecidableEq

/-- Relationship between two characters, referenced by id on either side. -/
structure CharacterRelationship where
  id : String
  storyId : String
  character1Id : String
  character2Id : String
  type : String
  createdAt : String
  updatedAt : String
  deriving Repr, DecidableEq

/-- Location entity. -/
structure Location where
  id : String
  storyId : String
  name : String
  type : String
  createdAt : String
  updatedAt : String
  deriving Repr, DecidableEq

/-- Lore entry; the three related-id lists live in join tables server-side. -/
structure LoreEntry where
  id : String
  storyId : String
  title : String
  category : String
  content : String
  tags : List String
  relatedCharacterIds : List String
  relatedLocationIds : List String
  relatedEventIds : List String
  createdAt : String
  updatedAt : String
  deriving Repr, DecidableEq

/-- Timeline event; `characterIds` lives in the `event_characters` join table. -/
structure TimelineEvent where
  id : String
  storyId : String
  title : String
  significance : String
  order : Int
  characterIds : List String
  createdAt : String
  updatedAt : String
  deriving Repr, DecidableEq

/-- Idea card; related-id lists live in join tables, `tags` is client-only. -/
structure IdeaCard where
  id : String
  storyId : String
  groupId : Option String
  title : String
  content : String
  type : String
  order : Int
  tags : List String
  relatedCharacterIds : List String
  relatedLocationIds : List String
  createdAt : String
  updatedAt : String
  deriving Repr, DecidableEq

/-- Idea group entity. -/
structure IdeaGroup where
  id : String
  storyId : String
  name : String
  createdAt : String
  deriving Repr, DecidableEq

/-- Chapter entity; `characterIds` / `locationIds` live in join tables. -/
structure Chapter where
  id : String
  storyId : String
  title : String
  content : String
  order : Int
  status : String
  wordCount : Nat
  tags : List String
  characterIds : List String
  locationIds : List String
  createdAt : String
  updatedAt : String
  deriving Repr, DecidableEq

/-- Tag entity. -/
structure Tag where
  id : String
  storyId : String
  name : String
  color : String
  createdAt : String
  deriving Repr, DecidableEq

/-- Snapshot: one list per entity type, the unit of synchronization.  This is
the shape produced by `exportData`, accepted by `loadFromServer`, returned by
`GET /api/data/sync` and posted to `POST /api/data/sync`. -/
structure Snapshot where
  stories : List Story
  characters : List Character
  locations : List Location
  events : List TimelineEvent
  relationships : List CharacterRelationship
  loreEntries : List LoreEntry
  ideaGroups : List IdeaGroup
  ideaCards : List IdeaCard
  chapters : List Chapter
  tags : List Tag
  deriving Repr, DecidableEq

/-- The all-empty snapshot. -/
def Snapshot.empty : Snapshot :=
  { stories := [], characters := [], locations := [], events := []
    relationships := [], loreEntries := [], ideaGroups := [], ideaCards := []
    chapters := [], tags := [] }

/-- State of the Zustand store: the entity collections plus the current-user
slot (`user`, holding the user id when set). -/
structure StoreState where
  user : Option String
  stories : List Story
  characters : List Character
  locations : List Location
  events : List TimelineEvent
  relationships : List CharacterRelationship
  loreEntries : List LoreEntry
  ideaGroups : List IdeaGroup
  ideaCards : List IdeaCard
  chapters : List Chapter
  tags : List Tag
  deriving Repr, DecidableEq

namespace StoreState

/-- Export of the store for syncing (`exportData` in the source).  The source
maps each collection converting `Date` fields through `toISO`; timestamps are
modelled already serialized, so each of those maps is the identity and the
export is the plain collection record. -/
def exportData (st : StoreState) : Snapshot :=
  { stories := st.stories, characters := st.characters, locations := st.locations
    events := st.events, relationships := st.relationships
    loreEntries := st.loreEntries, ideaGroups := st.ideaGroups
    ideaCards := st.ideaCards, chapters := st.chapters, tags := st.tags }

/-- Wholesale replacement of every collection with the server data
(`loadFromServer` in the source).  The source maps each incoming list through
a per-entity normalizer (`new Date` on timestamps, `|| []` on absent list
fields); both are identities under the modelling conventions, so each
collection is replaced by the corresponding server list.  The `user` slot is
not touched, exactly as the source's `set` call omits it. -/
def loadFromServer (data : Snapshot) (st : StoreState) : StoreState :=
  { st with
    stories := data.stories, characters := data.characters
    locations := data.locations, events := data.events
    relationships := data.relationships, loreEntries := data.loreEntries
    ideaGroups := data.ideaGroups, ideaCards := data.ideaCards
    chapters := data.chapters, tags := data.tags }

/-- Reset of every collection and the user slot (`clearAll` in the source). -/
def clearAll (_st : StoreState) : StoreState :=
  { user := none, stories := [], characters := [], relationships := []
    locations := [], loreEntries := [], events := [], ideaCards := []
    ideaGroups := [], chapters := [], tags := [] }

end StoreState

/-- Field update for `updateStory` (`Partial` of the entity in the source):
absent fields leave the entity's current value in place under JS spread. -/
structure StoryPatch where
  title : Option String := none
  status : Option String := none
  deriving Repr, DecidableEq

/-- Field update for `updateCharacter`. -/
structure CharacterPatch where
  name : Option String := none
  role : Option String := none
  personality : Option (List String) := none
  deriving Repr, DecidableEq

/-- Field update for `updateLocation`. -/
structure LocationPatch where
  name : Option String := none
  type : Option String := none
  deriving Repr, DecidableEq

/-- Field update for `updateLoreEntry`. -/
structure LorePatch where
  title : Option String := none
  content : Option String := none
  tags : Option (List String) := none
  deriving Repr, DecidableEq

/-- Field update for `updateEvent`. -/
structure EventPatch where
  title : Option String := none
  order : Option Int := none
  deriving Repr, DecidableEq

/-- Field update for `updateIdeaCard`. -/
structure IdeaCardPatch where
  title : Option String := none
  content : Option String := none
  order : Option Int := none
  deriving Repr, DecidableEq

/-- Field update for `updateChapter`; `content` drives the word-count
recomputation. -/
structure ChapterPatch where
  title : Option String := none
  content : Option String := none
  order : Option Int := none
  status : Option String := none
  deriving Repr, DecidableEq

/-- Field update for `updateTag`. -/
structure TagPatch where
  name : Option String := none
  color : Option String := none
  deriving Repr, DecidableEq

/-- Word count of chapter content, as computed in `addChapter` /
`updateChapter`: trim, split on whitespace, drop empty tokens, count. -/
def countWords (content : String) : Nat :=
  ((content.split Char.isWhitespace).filter (fun w => !w.isEmpty)).length

namespace StoreState

/-- Source `updateStory`: map over the collection, merging the update and
refreshing `updatedAt` on the matching id. -/
def updateStory (id : String) (u : StoryPatch) (now : String) (st : StoreState) :
    StoreState :=
  { st with stories := st.stories.map (fun s =>
      if s.id == id then
        { s with title := u.title.getD s.title, status := u.status.getD s.status
                 updatedAt := now }
      else s) }

/-- Source `deleteStory`: one `set` removing the story and filtering the
dependent collections by `storyId`.  The source filters characters, locations,
events, loreEntries, ideaCards, ideaGroups and relationships; it does not
touch `chapters` or `tags`. -/
def deleteStory (id : String) (st : StoreState) : StoreState :=
  { st with
    stories := st.stories.filter (fun s => s.id != id)
    characters := st.characters.filter (fun c => c.storyId != id)
    locations := st.locations.filter (fun l => l.storyId != id)
    events := st.events.filter (fun e => e.storyId != id)
    loreEntries := st.loreEntries.filter (fun l => l.storyId != id)
    ideaCards := st.ideaCards.filter (fun i => i.storyId != id)
    ideaGroups := st.ideaGroups.filter (fun g => g.storyId != id)
    relationships := st.relationships.filter (fun r => r.storyId != id) }

/-- Source `updateCharacter`. -/
def updateCharacter (id : String) (u : CharacterPatch) (now : String)
    (st : StoreState) : StoreState :=
  { st with characters := st.characters.map (fun c =>
      if c.id == id then
        { c with name := u.name.getD c.name, role := u.role.getD c.role
                 personality := u.personality.getD c.personality
                 updatedAt := now }
      else c) }

/-- Source `deleteCharacter`: removes the character and every relationship
referencing it as `character1Id` or `character2Id`. -/
def deleteCharacter (id : String) (st : StoreState) : StoreState :=
  { st with
    characters := st.characters.filter (fun c => c.id != id)
    relationships := st.relationships.filter (fun r =>
      r.character1Id != id && r.character2Id != id) }

/-- Source `deleteRelationship`. -/
def deleteRelationship (id : String) (st : StoreState) : StoreState :=
  { st with relationships := st.relationships.filter (fun r => r.id != id) }

/-- Source `updateLocation`. -/
def updateLocation (id : String) (u : LocationPatch) (now : String)
    (st : StoreState) : StoreState :=
  { st with locations := st.locations.map (fun l =>
      if l.id == id then
        { l with name := u.name.getD l.name, type := u.type.getD l.type
                 updatedAt := now }
      else l) }

/-- Source `deleteLocation`. -/
def deleteLocation (id : String) (st : StoreState) : StoreState :=
  { st with locations := st.locations.filter (fun l => l.id != id) }

/-- Source `updateLoreEntry`. -/
def updateLoreEntry (id : String) (u : LorePatch) (now : String)
    (st : StoreState) : StoreState :=
  { st with loreEntries := st.loreEntries.map (fun l =>
      if l.id == id then
        { l with title := u.title.getD l.title, content := u.content.getD l.content
                 tags := u.tags.getD l.tags, updatedAt := now }
      else l) }

/-- Source `deleteLoreEntry`. -/
def deleteLoreEntry (id : String) (st : StoreState) : StoreState :=
  { st with loreEntries := st.loreEntries.filter (fun l => l.id != id) }

/-- Source `updateEvent`. -/
def updateEvent (id : String) (u : EventPatch) (now : String)
    (st : StoreState) : StoreState :=
  { st with events := st.events.map (fun e =>
      if e.id == id then
        { e with title := u.title.getD e.title, order := u.order.getD e.order
                 updatedAt := now }
      else e) }

/-- Source `deleteEvent`. -/
def deleteEvent (id : String) (st : StoreState) : StoreState :=
  { st with events := st.events.filter (fun e => e.id != id) }

/-- Source `updateIdeaCard`. -/
def updateIdeaCard (id : String) (u : IdeaCardPatch) (now : String)
    (st : StoreState) : StoreState :=
  { st with ideaCards := st.ideaCards.map (fun c =>
      if c.id == id then
        { c with title := u.title.getD c.title, content := u.content.getD c.content
                 order := u.order.getD c.order, updatedAt := now }
      else c) }

/-- Source `deleteIdeaCard`. -/
def deleteIdeaCard (id : String) (st : StoreState) : StoreState :=
  { st with ideaCards := st.ideaCards.filter (fun c => c.id != id) }

/-- Source `updateChapter`: the word count is recomputed from the updated
content (`updates.content ?? c.content`) on the matching id. -/
def updateChapter (id : String) (u : ChapterPatch) (now : String)
    (st : StoreState) : StoreState :=
  { st with chapters := st.chapters.map (fun c =>
      if c.id == id then
        let newContent := u.content.getD c.content
        { c with title := u.title.getD c.title, content := newContent
                 order := u.order.getD c.order, status := u.status.getD c.status
                 wordCount := countWords newContent, updatedAt := now }
      else c) }

/-- Source `deleteChapter`. -/
def deleteChapter (id : String) (st : StoreState) : StoreState :=
  { st with chapters := st.chapters.filter (fun c => c.id != id) }

/-- Source `updateTag`: plain merge, no `updatedAt` refresh (tags carry none). -/
def updateTag (id : String) (u : TagPatch) (st : StoreState) : StoreState :=
  { st with tags := st.tags.map (fun t =>
      if t.id == id then
        { t with name := u.name.getD t.name, color := u.color.getD t.color }
      else t) }

/-- Source `deleteTag`. -/
def deleteTag (id : String) (st : StoreState) : StoreState :=
  { st with tags := st.tags.filter (fun t => t.id != id) }

end StoreState

/-- Emptiness heuristic from `loadUserData`:
`(data.stories?.length > 0) || (data.chapters?.length > 0)` — a snapshot
counts as having data iff its stories list or its chapters list is
non-empty; no other entity list is consulted. -/
def hasData (s : Snapshot) : Bool :=
  decide (s.stories.length > 0) || decide (s.chapters.length > 0)

/-- Coordinator-side state of `AuthProvider`: the React `user` state, the
`isSyncing` flag, the `skipNextSyncRef` flag, the `lastLoadTimeRef` instant
(milliseconds), and the Zustand store it drives. -/
structure CoordState where
  user : Option String
  isSyncing : Bool
  skipNextSync : Bool
  lastLoadTime : Int
  store : StoreState
  deriving Repr, DecidableEq

/-- Outcome of the `fetch('/api/data/sync')` pull: an `ok` response carrying
the server snapshot, a non-ok HTTP response, or a thrown network error. -/
inductive PullOutcome where
  | ok (data : Snapshot)
  | httpError
  | exn
  deriving Repr, DecidableEq

/-- Bodies POSTed to `/api/data/sync`, in order. -/
abbrev PushLog := List Snapshot

/-- Source `loadUserData` (initial reconciliation), one step at instant `now`:
sets `skipNextSyncRef` and `lastLoadTimeRef`, pulls, and on success either
adopts the server snapshot (`loadFromServer`) when the server has data or the
local store is empty, or pushes the local data (`syncDataToServer`) when the
server is empty and the local store is not.  A non-ok response only logs; a
thrown error clears the skip flag.  The deferred 3-second timeout clearing
the skip flag after adoption is later wall-clock behaviour outside this step.
Returns the new coordinator state and the POST bodies issued. -/
def loadUserData (outcome : PullOutcome) (now : Int) (st : CoordState) :
    CoordState × PushLog :=
  let st1 := { st with skipNextSync := true, lastLoadTime := now }
  match outcome with
  | .ok serverData =>
    let localData := st1.store.exportData
    let serverHasData := hasData serverData
    let localHasData := hasData localData
    if serverHasData || !localHasData then
      ({ st1 with store := st1.store.loadFromServer serverData }, [])
    else if localHasData && !serverHasData then
      ({ st1 with skipNextSync := false }, [localData])
    else
      (st1, [])
  | .httpError => (st1, [])
  | .exn => ({ st1 with skipNextSync := false }, [])

/-- Source `syncData`, the guarded push routine shared by the debounce timer,
the 10-second periodic timer, the visibility-change handler and `logout`.
Guards, in source order: skip when within 5000 ms of the last load; skip when
no user, when `skipNextSyncRef` is set, or when a push is in flight; skip when
the exported data has no stories.  Otherwise POST the export (the transient
`isSyncing` toggle spans the await and is back to its prior value when the
call completes, so the returned state carries its net effect). -/
def syncData (now : Int) (st : CoordState) : CoordState × PushLog :=
  if now - st.lastLoadTime < 5000 then (st, [])
  else if st.user.isNone || st.skipNextSync || st.isSyncing then (st, [])
  else
    let data := st.store.exportData
    if data.stories.length == 0 then (st, [])
    else (st, [data])

/-- Source `logout`: await the guarded `syncData`, call the auth logout
endpoint, set the React user to `null` and `clearAll` the store. -/
def logout (now : Int) (st : CoordState) : CoordState × PushLog :=
  let r := syncData now st
  ({ r.1 with user := none, store := r.1.store.clearAll }, r.2)

/-! Generic list lemmas used throughout the development. -/

theorem map_eq_self_of {α : Type} (l : List α) (f : α → α)
    (h : ∀ a ∈ l, f a = a) : l.map f = l := by
  induction l with
  | nil => rfl
  | cons a t ih =>
    simp only [List.map_cons, h a (List.mem_cons_self a t),
      ih (fun b hb => h b (List.mem_cons_of_mem a hb))]

theorem filter_eq_self_of {α : Type} (l : List α) (p : α → Bool)
    (h : ∀ a ∈ l, p a = true) : l.filter p = l := by
  induction l with
  | nil => rfl
  | cons a t ih =>
    simp only [List.filter_cons, h a (List.mem_cons_self a t), if_pos]
    exact congrArg (a :: ·) (ih (fun b hb => h b (List.mem_cons_of_mem a hb)))

theorem filter_eq_nil_of {α : Type} (l : List α) (p : α → Bool)
    (h : ∀ a ∈ l, p a = false) : l.filter p = [] := by
  induction l with
  | nil => rfl
  | cons a t ih =>
    simp only [List.filter_cons, h a (List.mem_cons_self a t)]
    exact ih (fun b hb => h b (List.mem_cons_of_mem a hb))

theorem not_mem_map_key {α : Type} {l : List α} {key : α → String} {id : String}
    (h : id ∉ l.map key) : ∀ a ∈ l, key a ≠ id := by
  intro a ha e
  exact h (List.mem_map.mpr ⟨a, ha, e⟩)

/-! Concrete sample data used by witnesses and counterexamples. -/

/-- A sample story. -/
def sampleStory (i : String) : Story :=
  { id := i, userId := "u0", title := "Draft", status := "planning"
    createdAt := "2024-01-01", updatedAt := "2024-01-01" }

/-- A sample character scoped to story `sid`. -/
def sampleCharacter (i sid : String) : Character :=
  { id := i, storyId := sid, name := "Alice", role := "protagonist"
    personality := ["brave"], createdAt := "2024-01-01", updatedAt := "2024-01-01" }

/-- A sample relationship between characters `a` and `b` in story `sid`. -/
def sampleRelationship (i sid a b : String) : CharacterRelationship :=
  { id := i, storyId := sid, character1Id := a, character2Id := b
    type := "friend", createdAt := "2024-01-01", updatedAt := "2024-01-01" }

/-- A sample chapter scoped to story `sid`. -/
def sampleChapter (i sid : String) : Chapter :=
  { id := i, storyId := sid, title := "Chapter One", content := "hello world"
    order := 0, status := "draft", wordCount := 2, tags := []
    characterIds := [], locationIds := []
    createdAt := "2024-01-01", updatedAt := "2024-01-01" }

/-- A sample tag scoped to story `sid`. -/
def sampleTag (i sid : String) : Tag :=
  { id := i, storyId := sid, name := "plot", color := "red"
    createdAt := "2024-01-01" }

/-- The store with every collection empty and no user. -/
def emptyStore : StoreState :=
  { user := none, stories := [], characters := [], locations := [], events := []
    relationships := [], loreEntries := [], ideaGroups := [], ideaCards := []
    chapters := [], tags := [] }

/-- A sample location scoped to story `sid`. -/
def sampleLocation (i sid : String) : Location :=
  { id := i, storyId := sid, name := "Castle", type := "building"
    createdAt := "2024-01-01", updatedAt := "2024-01-01" }

/-- A sample lore entry scoped to story `sid`. -/
def sampleLore (i sid : String) : LoreEntry :=
  { id := i, storyId := sid, title := "Origins", category := "history"
    content := "Long ago", tags := ["old"], relatedCharacterIds := []
    relatedLocationIds := [], relatedEventIds := []
    createdAt := "2024-01-01", updatedAt := "2024-01-01" }

/-- A sample timeline event scoped to story `sid`. -/
def sampleEvent (i sid : String) : TimelineEvent :=
  { id := i, storyId := sid, title := "Battle", significance := "major"
    order := 0, characterIds := []
    createdAt := "2024-01-01", updatedAt := "2024-01-01" }

/-- A sample idea card scoped to story `sid`. -/
def sampleIdeaCard (i sid : String) : IdeaCard :=
  { id := i, storyId := sid, groupId := none, title := "Twist"
    content := "What if", type := "note", order := 0, tags := []
    relatedCharacterIds := [], relatedLocationIds := []
    createdAt := "2024-01-01", updatedAt := "2024-01-01" }

/-- A sample idea group scoped to story `sid`. -/
def sampleIdeaGroup (i sid : String) : IdeaGroup :=
  { id := i, storyId := sid, name := "Act 1", createdAt := "2024-01-01" }

/-- Auxiliary: `loadUserData` records the pull instant in `lastLoadTime`
whatever the pull outcome. -/
theorem loadUserData_lastLoadTime (outcome : PullOutcome) (now : Int)
    (st : CoordState) : (loadUserData outcome now st).1.lastLoadTime = now := by
  cases outcome with
  | ok d =>
    simp only [loadUserData]
    split
    · rfl
    · split <;> rfl
  | httpError => rfl
  | exn => rfl

/-- Snapshot whose only content is a single character. -/
def snapOnlyCharacters : Snapshot :=
  { Snapshot.empty with characters := [sampleCharacter "c1" "s1"] }

/-- Snapshot whose only content is a single story. -/
def snapOneStory : Snapshot :=
  { Snapshot.empty with stories := [sampleStory "s1"] }

/-- C3.  Emptiness heuristic: `hasData` is true iff the stories list or the
chapters list is non-empty; it depends on no other entity list (snapshots
agreeing on stories and chapters get the same verdict); in particular a
snapshot with no stories and no chapters counts as empty whatever the other
lists hold. -/
theorem C3_emptiness_heuristic (s : Snapshot) :
    (hasData s = true ↔ (s.stories ≠ [] ∨ s.chapters ≠ []))
    ∧ (∀ t : Snapshot, s.stories = t.stories → s.chapters = t.chapters →
        hasData s = hasData t)
    ∧ (s.stories = [] → s.chapters = [] → hasData s = false) := by
  refine ⟨?_, ?_, ?_⟩
  · simp [hasData, List.length_pos]
  · intro t h1 h2
    simp [hasData, h1, h2]
  · intro h1 h2
    simp [hasData, h1, h2]

/-- Witness for C3: a snapshot holding only a character is judged exactly like
the all-empty snapshot, and a snapshot holding a story has data. -/
theorem C3_emptiness_heuristic_witness :
    hasData snapOnlyCharacters = hasData Snapshot.empty
    ∧ hasData snapOneStory = true := by
  constructor
  · exact (C3_emptiness_heuristic snapOnlyCharacters).2.1 Snapshot.empty rfl rfl
  · exact (C3_emptiness_heuristic snapOneStory).1.mpr (Or.inl (by decide))

/-- C4.  Push suppression: any push routed through the guarded `syncData`
within 5000 ms of a pull (which stamped `lastLoadTime`) does not execute —
no POST body is produced and the coordinator state, store included, is
returned unchanged. -/
theorem C4_push_suppression (outcome : PullOutcome) (tPull now : Int)
    (st : CoordState) (h : now - tPull < 5000) :
    syncData now (loadUserData outcome tPull st).1
      = ((loadUserData outcome tPull st).1, []) := by
  have hl := loadUserData_lastLoadTime outcome tPull st
  simp [syncData, hl, h]

/-- A coordinator state with a logged-in user and a non-empty local store. -/
def sampleCoord : CoordState :=
  { user := some "u0", isSyncing := false, skipNextSync := false
    lastLoadTime := 0
    store := { emptyStore with stories := [sampleStory "s1"] } }

/-- Witness for C4: one second after a failed pull at instant 0, the guarded
push is a no-op. -/
theorem C4_push_suppression_witness :
    syncData 1000 (loadUserData PullOutcome.httpError 0 sampleCoord).1
      = ((loadUserData PullOutcome.httpError 0 sampleCoord).1, []) :=
  C4_push_suppression PullOutcome.httpError 0 1000 sampleCoord (by decide)

/-- C7.  Implicit empty-push guard: whenever the exported local data has no
stories, the guarded push routine issues no POST — including on the logout
path — no matter what the other entity lists hold. -/
theorem C7_empty_push_guard (now : Int) (st : CoordState)
    (h : st.store.stories = []) :
    syncData now st = (st, []) ∧ (logout now st).2 = [] := by
  have hs : syncData now st = (st, []) := by
    simp only [syncData, StoreState.exportData]
    split
    · rfl
    · split
      · rfl
      · simp [h]
  exact ⟨hs, by simp [logout, hs]⟩

/-- A coordinator state far past the guard window whose store has chapters
but no stories. -/
def coordNoStories : CoordState :=
  { user := some "u0", isSyncing := false, skipNextSync := false
    lastLoadTime := -100000
    store := { emptyStore with chapters := [sampleChapter "ch1" "s1"] } }

/-- Witness for C7: with chapters present but zero stories, neither the
guarded push nor logout produces a POST. -/
theorem C7_empty_push_guard_witness :
    syncData 0 coordNoStories = (coordNoStories, [])
    ∧ (logout 0 coordNoStories).2 = [] :=
  C7_empty_push_guard 0 coordNoStories rfl

/-- C8.  Pull failure atomicity: on a non-ok HTTP response and on a thrown
network error alike, `loadUserData` leaves every store collection untouched
and issues no adoption push. -/
theorem C8_pull_failure_atomicity (now : Int) (st : CoordState) :
    ((loadUserData PullOutcome.httpError now st).1.store = st.store
      ∧ (loadUserData PullOutcome.httpError now st).2 = [])
    ∧ ((loadUserData PullOutcome.exn now st).1.store = st.store
      ∧ (loadUserData PullOutcome.exn now st).2 = []) :=
  ⟨⟨rfl, rfl⟩, ⟨rfl, rfl⟩⟩

/-- C1.  Server-wins reconciliation: on a successful pull whose snapshot has
data, every collection of the local store afterwards equals the corresponding
server list — whatever the local store held — and no push is issued. -/
theorem C1_server_wins (server : Snapshot) (now : Int) (st : CoordState)
    (h : hasData server = true) :
    (loadUserData (PullOutcome.ok server) now st).2 = []
    ∧ (loadUserData (PullOutcome.ok server) now st).1.store.stories = server.stories
    ∧ (loadUserData (PullOutcome.ok server) now st).1.store.characters = server.characters
    ∧ (loadUserData (PullOutcome.ok server) now st).1.store.locations = server.locations
    ∧ (loadUserData (PullOutcome.ok server) now st).1.store.events = server.events
    ∧ (loadUserData (PullOutcome.ok server) now st).1.store.relationships = server.relationships
    ∧ (loadUserData (PullOutcome.ok server) now st).1.store.loreEntries = server.loreEntries
    ∧ (loadUserData (PullOutcome.ok server) now st).1.store.ideaGroups = server.ideaGroups
    ∧ (loadUserData (PullOutcome.ok server) now st).1.store.ideaCards = server.ideaCards
    ∧ (loadUserData (PullOutcome.ok server) now st).1.store.chapters = server.chapters
    ∧ (loadUserData (PullOutcome.ok server) now st).1.store.tags = server.tags := by
  simp [loadUserData, h, StoreState.loadFromServer]

/-- A coordinator state whose local store holds two stories of its own. -/
def coordTwoLocal : CoordState :=
  { user := some "u0", isSyncing := false, skipNextSync := false
    lastLoadTime := 0
    store := { emptyStore with
               stories := [sampleStory "localA", sampleStory "localB"] } }

/-- Witness for C1: pulling a one-story server snapshot over a two-story local
store adopts exactly the server story list and pushes nothing. -/
theorem C1_server_wins_witness :
    (loadUserData (PullOutcome.ok snapOneStory) 0 coordTwoLocal).2 = []
    ∧ (loadUserData (PullOutcome.ok snapOneStory) 0 coordTwoLocal).1.store.stories
        = snapOneStory.stories :=
  ⟨(C1_server_wins snapOneStory 0 coordTwoLocal (by decide)).1,
   (C1_server_wins snapOneStory 0 coordTwoLocal (by decide)).2.1⟩

/-- A store holding one story together with a character, a relationship, a
chapter and a tag all scoped to it. -/
def storeForC5 : StoreState :=
  { emptyStore with
    stories := [sampleStory "s1"]
    characters := [sampleCharacter "c1" "s1"]
    relationships := [sampleRelationship "r1" "s1" "c1" "c2"]
    chapters := [sampleChapter "ch1" "s1"]
    tags := [sampleTag "t1" "s1"] }

/-- C5 evaluation at the failing input: `deleteStory` removes the story, its
characters and its relationships, but leaves the chapter and the tag scoped to
the deleted story in place — the cascade skips `chapters` and `tags`. -/
theorem C5_deleteStory_eval :
    (storeForC5.deleteStory "s1").stories = []
    ∧ (storeForC5.deleteStory "s1").characters = []
    ∧ (storeForC5.deleteStory "s1").relationships = []
    ∧ (storeForC5.deleteStory "s1").chapters = [sampleChapter "ch1" "s1"]
    ∧ (storeForC5.deleteStory "s1").tags = [sampleTag "t1" "s1"] := by
  decide

/-- A coordinator state as left immediately after a pull at instant 0, with a
freshly made local edit. -/
def coordFreshLoad : CoordState :=
  { user := some "u0", isSyncing := false, skipNextSync := false
    lastLoadTime := 0
    store := { emptyStore with stories := [sampleStory "s1"] } }

/-- Counterexample to C6 as stated: logging out one second after a pull, with
a non-empty local store, produces zero pushes — not exactly one — yet still
clears the store. -/
theorem C6_counterexample :
    coordFreshLoad.store.stories ≠ []
    ∧ (logout 1000 coordFreshLoad).2 = []
    ∧ (logout 1000 coordFreshLoad).1.store = emptyStore := by
  decide

/-- C6 amended.  Logout always ends with the store cleared and the user slot
none, and performs at most one push; it performs exactly one push carrying
the latest exported local state precisely when the guarded `syncData` is not
suppressed (outside the 5-second post-pull window, user set, skip flag clear,
no push in flight, stories non-empty). -/
theorem C6_logout_finality_amended (now : Int) (st : CoordState) :
    (logout now st).1.store = emptyStore
    ∧ (logout now st).1.user = none
    ∧ (logout now st).2.length ≤ 1
    ∧ (5000 ≤ now - st.lastLoadTime → st.user.isSome = true →
        st.skipNextSync = false → st.isSyncing = false →
        st.store.stories ≠ [] →
        (logout now st).2 = [st.store.exportData]) := by
  have hcases : (syncData now st).2 = [] ∨ (syncData now st).2 = [st.store.exportData] := by
    simp only [syncData]
    split
    · exact Or.inl rfl
    · split
      · exact Or.inl rfl
      · split
        · exact Or.inl rfl
        · exact Or.inr rfl
  refine ⟨rfl, rfl, ?_, ?_⟩
  · show (syncData now st).2.length ≤ 1
    rcases hcases with h | h <;> simp [h]
  · intro hwin huser hskip hfl hstories
    show (syncData now st).2 = [st.store.exportData]
    have h1 : ¬ (now - st.lastLoadTime < 5000) := by omega
    have h2 : (st.user.isNone || st.skipNextSync || st.isSyncing) = false := by
      have hn : st.user.isNone = false := by
        cases hu : st.user
        · rw [hu] at huser
          simp at huser
        · rfl
      simp [hn, hskip, hfl]
    have h3 : ((st.store.exportData).stories.length == 0) = false := by
      simp [StoreState.exportData, hstories]
    simp [syncData, h1, h2, h3]

/-- A coordinator state well outside the guard window with a pending local
story to persist. -/
def coordReadyPush : CoordState :=
  { user := some "u0", isSyncing := false, skipNextSync := false
    lastLoadTime := -10000
    store := { emptyStore with stories := [sampleStory "s1"] } }

/-- Witness for amended C6: logging out in a pushable state yields exactly one
push of the exported store and ends cleared. -/
theorem C6_logout_finality_witness :
    (logout 0 coordReadyPush).2 = [coordReadyPush.store.exportData]
    ∧ (logout 0 coordReadyPush).1.store = emptyStore :=
  ⟨(C6_logout_finality_amended 0 coordReadyPush).2.2.2 (by decide) rfl rfl rfl
      (by decide),
   (C6_logout_finality_amended 0 coordReadyPush).1⟩

/-- A store with no characters but a relationship whose endpoints dangle. -/
def storeDangling : StoreState :=
  { emptyStore with relationships := [sampleRelationship "r1" "s1" "c1" "c2"] }

/-- Counterexample to C10 as stated: `"c1"` is absent from the characters
collection, yet `deleteCharacter "c1"` changes the store — the relationship
cascade removes the dangling relationship referencing it. -/
theorem C10_counterexample :
    storeDangling.characters.map Character.id = []
    ∧ storeDangling.deleteCharacter "c1" ≠ storeDangling := by
  decide

/-- C10 amended.  Updates of an absent id are no-ops for every entity type
and every field update; deletes of an absent id are no-ops for every
non-cascading entity type; the two cascading deletes (`deleteStory`,
`deleteCharacter`) are no-ops for an absent id provided no dependent entity
still references that id. -/
theorem C10_tolerant_update_delete (st : StoreState) (id : String) (now : String) :
    (∀ u : StoryPatch, id ∉ st.stories.map Story.id →
        st.updateStory id u now = st)
    ∧ (id ∉ st.stories.map Story.id →
        (∀ c ∈ st.characters, c.storyId ≠ id) →
        (∀ l ∈ st.locations, l.storyId ≠ id) →
        (∀ e ∈ st.events, e.storyId ≠ id) →
        (∀ l ∈ st.loreEntries, l.storyId ≠ id) →
        (∀ i ∈ st.ideaCards, i.storyId ≠ id) →
        (∀ g ∈ st.ideaGroups, g.storyId ≠ id) →
        (∀ r ∈ st.relationships, r.storyId ≠ id) →
        st.deleteStory id = st)
    ∧ (∀ u : CharacterPatch, id ∉ st.characters.map Character.id →
        st.updateCharacter id u now = st)
    ∧ (id ∉ st.characters.map Character.id →
        (∀ r ∈ st.relationships, r.character1Id ≠ id ∧ r.character2Id ≠ id) →
        st.deleteCharacter id = st)
    ∧ (id ∉ st.relationships.map CharacterRelationship.id →
        st.deleteRelationship id = st)
    ∧ (∀ u : LocationPatch, id ∉ st.locations.map Location.id →
        st.updateLocation id u now = st)
    ∧ (id ∉ st.locations.map Location.id → st.deleteLocation id = st)
    ∧ (∀ u : LorePatch, id ∉ st.loreEntries.map LoreEntry.id →
        st.updateLoreEntry id u now = st)
    ∧ (id ∉ st.loreEntries.map LoreEntry.id → st.deleteLoreEntry id = st)
    ∧ (∀ u : EventPatch, id ∉ st.events.map TimelineEvent.id →
        st.updateEvent id u now = st)
    ∧ (id ∉ st.events.map TimelineEvent.id → st.deleteEvent id = st)
    ∧ (∀ u : IdeaCardPatch, id ∉ st.ideaCards.map IdeaCard.id →
        st.updateIdeaCard id u now = st)
    ∧ (id ∉ st.ideaCards.map IdeaCard.id → st.deleteIdeaCard id = st)
    ∧ (∀ u : ChapterPatch, id ∉ st.chapters.map Chapter.id →
        st.updateChapter id u now = st)
    ∧ (id ∉ st.chapters.map Chapter.id → st.deleteChapter id = st)
    ∧ (∀ u : TagPatch, id ∉ st.tags.map Tag.id → st.updateTag id u = st)
    ∧ (id ∉ st.tags.map Tag.id → st.deleteTag id = st) := by
  have hbeq : ∀ (a b : String), a ≠ b → (a == b) = false := by
    intro a b hab
    exact beq_eq_false_iff_ne.mpr hab
  have hbne : ∀ (a b : String), a ≠ b → (a != b) = true := by
    intro a b hab
    simp [bne_iff_ne, hab]
  refine ⟨?_, ?_, ?_, ?_, ?_, ?_, ?_, ?_, ?_, ?_, ?_, ?_, ?_, ?_, ?_, ?_, ?_⟩
  · intro u h
    simp only [StoreState.updateStory]
    rw [map_eq_self_of _ _ (fun s hs => by
      simp [hbeq _ _ (not_mem_map_key h s hs)])]
  · intro h hc hl he hlo hi hg hr
    simp only [StoreState.deleteStory]
    rw [filter_eq_self_of _ _ (fun s hs => hbne _ _ (not_mem_map_key h s hs)),
      filter_eq_self_of _ _ (fun c hc' => hbne _ _ (hc c hc')),
      filter_eq_self_of _ _ (fun l hl' => hbne _ _ (hl l hl')),
      filter_eq_self_of _ _ (fun e he' => hbne _ _ (he e he')),
      filter_eq_self_of _ _ (fun l hl' => hbne _ _ (hlo l hl')),
      filter_eq_self_of _ _ (fun i hi' => hbne _ _ (hi i hi')),
      filter_eq_self_of _ _ (fun g hg' => hbne _ _ (hg g hg')),
      filter_eq_self_of _ _ (fun r hr' => hbne _ _ (hr r hr'))]
  · intro u h
    simp only [StoreState.updateCharacter]
    rw [map_eq_self_of _ _ (fun c hc => by
      simp [hbeq _ _ (not_mem_map_key h c hc)])]
  · intro h hr
    simp only [StoreState.deleteCharacter]
    rw [filter_eq_self_of _ _ (fun c hc => hbne _ _ (not_mem_map_key h c hc)),
      filter_eq_self_of _ _ (fun r hr' => by
        simp [hbne _ _ (hr r hr').1, hbne _ _ (hr r hr').2])]
  · intro h
    simp only [StoreState.deleteRelationship]
    rw [filter_eq_self_of _ _ (fun r hr => hbne _ _ (not_mem_map_key h r hr))]
  · intro u h
    simp only [StoreState.updateLocation]
    rw [map_eq_self_of _ _ (fun l hl => by
      simp [hbeq _ _ (not_mem_map_key h l hl)])]
  · intro h
    simp only [StoreState.deleteLocation]
    rw [filter_eq_self_of _ _ (fun l hl => hbne _ _ (not_mem_map_key h l hl))]
  · intro u h
    simp only [StoreState.updateLoreEntry]
    rw [map_eq_self_of _ _ (fun l hl => by
      simp [hbeq _ _ (not_mem_map_key h l hl)])]
  · intro h
    simp only [StoreState.deleteLoreEntry]
    rw [filter_eq_self_of _ _ (fun l hl => hbne _ _ (not_mem_map_key h l hl))]
  · intro u h
    simp only [StoreState.updateEvent]
    rw [map_eq_self_of _ _ (fun e he => by
      simp [hbeq _ _ (not_mem_map_key h e he)])]
  · intro h
    simp only [StoreState.deleteEvent]
    rw [filter_eq_self_of _ _ (fun e he => hbne _ _ (not_mem_map_key h e he))]
  · intro u h
    simp only [StoreState.updateIdeaCard]
    rw [map_eq_self_of _ _ (fun c hc => by
      simp [hbeq _ _ (not_mem_map_key h c hc)])]
  · intro h
    simp only [StoreState.deleteIdeaCard]
    rw [filter_eq_self_of _ _ (fun c hc => hbne _ _ (not_mem_map_key h c hc))]
  · intro u h
    simp only [StoreState.updateChapter]
    rw [map_eq_self_of _ _ (fun c hc => by
      simp [hbeq _ _ (not_mem_map_key h c hc)])]
  · intro h
    simp only [StoreState.deleteChapter]
    rw [filter_eq_self_of _ _ (fun c hc => hbne _ _ (not_mem_map_key h c hc))]
  · intro u h
    simp only [StoreState.updateTag]
    rw [map_eq_self_of _ _ (fun t ht => by
      simp [hbeq _ _ (not_mem_map_key h t ht)])]
  · intro h
    simp only [StoreState.deleteTag]
    rw [filter_eq_self_of _ _ (fun t ht => hbne _ _ (not_mem_map_key h t ht))]

/-- A store holding one entity of each type, all scoped to story `s1`. -/
def storeFull : StoreState :=
  { user := none
    stories := [sampleStory "s1"]
    characters := [sampleCharacter "c1" "s1"]
    locations := [sampleLocation "l1" "s1"]
    events := [sampleEvent "e1" "s1"]
    relationships := [sampleRelationship "r1" "s1" "c1" "c1"]
    loreEntries := [sampleLore "lo1" "s1"]
    ideaGroups := [sampleIdeaGroup "g1" "s1"]
    ideaCards := [sampleIdeaCard "i1" "s1"]
    chapters := [sampleChapter "ch1" "s1"]
    tags := [sampleTag "t1" "s1"] }

/-- Witness for amended C10: on a fully populated store, operations aimed at
the absent id `"zzz"` leave the store untouched. -/
theorem C10_tolerant_update_delete_witness :
    storeFull.updateStory "zzz" {} "2024-02-02" = storeFull
    ∧ storeFull.deleteCharacter "zzz" = storeFull
    ∧ storeFull.deleteChapter "zzz" = storeFull :=
  ⟨(C10_tolerant_update_delete storeFull "zzz" "2024-02-02").1 {} (by decide),
   (C10_tolerant_update_delete storeFull "zzz" "2024-02-02").2.2.2.1 (by decide)
     (by decide),
   (C10_tolerant_update_delete
       storeFull "zzz" "2024-02-02").2.2.2.2.2.2.2.2.2.2.2.2.2.2.1 (by decide)⟩

/-!
Relational model of the sync endpoint (`src/app/api/data/sync/route.ts`).
Tables are ordered row lists; SQL `INSERT` appends, `DELETE ... WHERE`
filters, `SELECT ... WHERE` filters in table order.  The four entity tables
with auxiliary join tables (`events`, `lore_entries`, `idea_cards`,
`chapters`) store their scalar columns in row types below, with the related
id lists living in the join tables as `(parent_id, child_id)` pairs.
-/

/-- Row of the `events` table (scalar columns only). -/
structure EventRow where
  id : String
  storyId : String
  title : String
  significance : String
  order : Int
  createdAt : String
  updatedAt : String
  deriving Repr, DecidableEq

/-- Columns inserted for an event by the `POST` handler. -/
def TimelineEvent.toRow (e : TimelineEvent) : EventRow :=
  { id := e.id, storyId := e.storyId, title := e.title
    significance := e.significance, order := e.order
    createdAt := e.createdAt, updatedAt := e.updatedAt }

/-- Event reconstructed by the `GET` handler from its row and the character
ids gathered from `event_characters`. -/
def EventRow.toEvent (r : EventRow) (characterIds : List String) : TimelineEvent :=
  { id := r.id, storyId := r.storyId, title := r.title
    significance := r.significance, order := r.order
    characterIds := characterIds
    createdAt := r.createdAt, updatedAt := r.updatedAt }

/-- Row of the `lore_entries` table (tags are stored inline as JSON). -/
structure LoreRow where
  id : String
  storyId : String
  title : String
  category : String
  content : String
  tags : List String
  createdAt : String
  updatedAt : String
  deriving Repr, DecidableEq

/-- Columns inserted for a lore entry by the `POST` handler. -/
def LoreEntry.toRow (l : LoreEntry) : LoreRow :=
  { id := l.id, storyId := l.storyId, title := l.title, category := l.category
    content := l.content, tags := l.tags
    createdAt := l.createdAt, updatedAt := l.updatedAt }

/-- Lore entry reconstructed by the `GET` handler from its row and the three
join tables. -/
def LoreRow.toLore (r : LoreRow) (cs ls es : List String) : LoreEntry :=
  { id := r.id, storyId := r.storyId, title := r.title, category := r.category
    content := r.content, tags := r.tags
    relatedCharacterIds := cs, relatedLocationIds := ls, relatedEventIds := es
    createdAt := r.createdAt, updatedAt := r.updatedAt }

/-- Row of the `idea_cards` table; client-side `tags` are not persisted. -/
structure IdeaRow where
  id : String
  storyId : String
  groupId : Option String
  title : String
  content : String
  type : String
  order : Int
  createdAt : String
  updatedAt : String
  deriving Repr, DecidableEq

/-- Columns inserted for an idea card by the `POST` handler (no tags). -/
def IdeaCard.toRow (i : IdeaCard) : IdeaRow :=
  { id := i.id, storyId := i.storyId, groupId := i.groupId, title := i.title
    content := i.content, type := i.type, order := i.order
    createdAt := i.createdAt, updatedAt := i.updatedAt }

/-- Idea card reconstructed by the `GET` handler; the source sets `tags: []`
unconditionally. -/
def IdeaRow.toCard (r : IdeaRow) (cs ls : List String) : IdeaCard :=
  { id := r.id, storyId := r.storyId, groupId := r.groupId, title := r.title
    content := r.content, type := r.type, order := r.order, tags := []
    relatedCharacterIds := cs, relatedLocationIds := ls
    createdAt := r.createdAt, updatedAt := r.updatedAt }

/-- Row of the `chapters` table (tags are stored inline as JSON). -/
structure ChapterRow where
  id : String
  storyId : String
  title : String
  content : String
  order : Int
  status : String
  wordCount : Nat
  tags : List String
  createdAt : String
  updatedAt : String
  deriving Repr, DecidableEq

/-- Columns inserted for a chapter by the `POST` handler. -/
def Chapter.toRow (c : Chapter) : ChapterRow :=
  { id := c.id, storyId := c.storyId, title := c.title, content := c.content
    order := c.order, status := c.status, wordCount := c.wordCount
    tags := c.tags, createdAt := c.createdAt, updatedAt := c.updatedAt }

/-- Chapter reconstructed by the `GET` handler from its row and the two join
tables. -/
def ChapterRow.toChapter (r : ChapterRow) (cs ls : List String) : Chapter :=
  { id := r.id, storyId := r.storyId, title := r.title, content := r.content
    order := r.order, status := r.status, wordCount := r.wordCount
    tags := r.tags, characterIds := cs, locationIds := ls
    createdAt := r.createdAt, updatedAt := r.updatedAt }

/-- The sync-relevant tables of the database. -/
structure DB where
  stories : List Story
  characters : List Character
  locations : List Location
  events : List EventRow
  relationships : List CharacterRelationship
  loreEntries : List LoreRow
  ideaGroups : List IdeaGroup
  ideaCards : List IdeaRow
  chapters : List ChapterRow
  tags : List Tag
  eventCharacters : List (String × String)
  loreCharacters : List (String × String)
  loreLocations : List (String × String)
  loreEvents : List (String × String)
  ideaCharacters : List (String × String)
  ideaLocations : List (String × String)
  chapterCharacters : List (String × String)
  chapterLocations : List (String × String)
  deriving Repr, DecidableEq

/-- The empty database. -/
def emptyDB : DB :=
  { stories := [], characters := [], locations := [], events := []
    relationships := [], loreEntries := [], ideaGroups := [], ideaCards := []
    chapters := [], tags := [], eventCharacters := [], loreCharacters := []
    loreLocations := [], loreEvents := [], ideaCharacters := []
    ideaLocations := [], chapterCharacters := [], chapterLocations := [] }

/-- Join rows produced by the nested insertion loops of the `POST` handler:
one `(key a, v)` row per value `v` of each parent `a`, in loop order. -/
def joinRows {α : Type} (key : α → String) (vals : α → List String)
    (l : List α) : List (String × String) :=
  l.flatMap (fun a => (vals a).map (fun v => (key a, v)))

/-- Per-parent lookup in a join table, as the `GET` handler's
`SELECT child_id ... WHERE parent_id = ?` per retrieved parent. -/
def lookupJoin (rows : List (String × String)) (k : String) : List String :=
  (rows.filter (fun p => p.1 == k)).map (fun p => p.2)

/-- Ids of the stories owned by `u` (`SELECT id FROM stories WHERE user_id = ?`). -/
def ownedStoryIds (u : String) (db : DB) : List String :=
  (db.stories.filter (fun s => s.userId == u)).map Story.id

/-- Source `GET`: retrieve the caller's stories, and every entity row whose
`story_id` is among them; reconstruct the join-table id lists per retrieved
row; answer the all-empty snapshot when the caller owns no stories. -/
def dbGet (u : String) (db : DB) : Snapshot :=
  let stories := db.stories.filter (fun s => s.userId == u)
  let storyIds := stories.map Story.id
  if storyIds.isEmpty then Snapshot.empty
  else
    { stories := stories
      characters := db.characters.filter (fun c => storyIds.contains c.storyId)
      locations := db.locations.filter (fun l => storyIds.contains l.storyId)
      events := (db.events.filter (fun e => storyIds.contains e.storyId)).map
        (fun e => e.toEvent (lookupJoin db.eventCharacters e.id))
      relationships := db.relationships.filter
        (fun r => storyIds.contains r.storyId)
      loreEntries := (db.loreEntries.filter
          (fun l => storyIds.contains l.storyId)).map
        (fun l => l.toLore (lookupJoin db.loreCharacters l.id)
          (lookupJoin db.loreLocations l.id) (lookupJoin db.loreEvents l.id))
      ideaGroups := db.ideaGroups.filter (fun g => storyIds.contains g.storyId)
      ideaCards := (db.ideaCards.filter
          (fun i => storyIds.contains i.storyId)).map
        (fun i => i.toCard (lookupJoin db.ideaCharacters i.id)
          (lookupJoin db.ideaLocations i.id))
      chapters := (db.chapters.filter
          (fun c => storyIds.contains c.storyId)).map
        (fun c => c.toChapter (lookupJoin db.chapterCharacters c.id)
          (lookupJoin db.chapterLocations c.id))
      tags := db.tags.filter (fun t => storyIds.contains t.storyId) }

/-- Delete phase of the source `POST`: every join-table `DELETE` runs first,
with its subselect evaluated while the parent rows are still present, then
the child tables are cleared for the caller's current story ids, then the
caller's stories. -/
def deletePhase (u : String) (db : DB) : DB :=
  let ids := ownedStoryIds u db
  let evIds := (db.events.filter
    (fun e => ids.contains e.storyId)).map EventRow.id
  let loreIds := (db.loreEntries.filter
    (fun l => ids.contains l.storyId)).map LoreRow.id
  let ideaIds := (db.ideaCards.filter
    (fun i => ids.contains i.storyId)).map IdeaRow.id
  let chapIds := (db.chapters.filter
    (fun c => ids.contains c.storyId)).map ChapterRow.id
  { eventCharacters := db.eventCharacters.filter
      (fun p => !evIds.contains p.1)
    loreCharacters := db.loreCharacters.filter (fun p => !loreIds.contains p.1)
    loreLocations := db.loreLocations.filter (fun p => !loreIds.contains p.1)
    loreEvents := db.loreEvents.filter (fun p => !loreIds.contains p.1)
    ideaCharacters := db.ideaCharacters.filter (fun p => !ideaIds.contains p.1)
    ideaLocations := db.ideaLocations.filter (fun p => !ideaIds.contains p.1)
    chapterCharacters := db.chapterCharacters.filter
      (fun p => !chapIds.contains p.1)
    chapterLocations := db.chapterLocations.filter
      (fun p => !chapIds.contains p.1)
    ideaCards := db.ideaCards.filter (fun i => !ids.contains i.storyId)
    ideaGroups := db.ideaGroups.filter (fun g => !ids.contains g.storyId)
    loreEntries := db.loreEntries.filter (fun l => !ids.contains l.storyId)
    relationships := db.relationships.filter (fun r => !ids.contains r.storyId)
    events := db.events.filter (fun e => !ids.contains e.storyId)
    chapters := db.chapters.filter (fun c => !ids.contains c.storyId)
    tags := db.tags.filter (fun t => !ids.contains t.storyId)
    locations := db.locations.filter (fun l => !ids.contains l.storyId)
    characters := db.characters.filter (fun c => !ids.contains c.storyId)
    stories := db.stories.filter (fun s => s.userId != u) }

/-- Insert phase of the source `POST`: append every posted entity, re-homing
stories to the session's user id, and append the join rows produced by the
nested loops. -/
def insertPhase (u : String) (data : Snapshot) (db : DB) : DB :=
  { stories := db.stories ++ data.stories.map (fun s => { s with userId := u })
    characters := db.characters ++ data.characters
    locations := db.locations ++ data.locations
    events := db.events ++ data.events.map TimelineEvent.toRow
    eventCharacters := db.eventCharacters
      ++ joinRows TimelineEvent.id TimelineEvent.characterIds data.events
    relationships := db.relationships ++ data.relationships
    loreEntries := db.loreEntries ++ data.loreEntries.map LoreEntry.toRow
    loreCharacters := db.loreCharacters
      ++ joinRows LoreEntry.id LoreEntry.relatedCharacterIds data.loreEntries
    loreLocations := db.loreLocations
      ++ joinRows LoreEntry.id LoreEntry.relatedLocationIds data.loreEntries
    loreEvents := db.loreEvents
      ++ joinRows LoreEntry.id LoreEntry.relatedEventIds data.loreEntries
    ideaGroups := db.ideaGroups ++ data.ideaGroups
    ideaCards := db.ideaCards ++ data.ideaCards.map IdeaCard.toRow
    ideaCharacters := db.ideaCharacters
      ++ joinRows IdeaCard.id IdeaCard.relatedCharacterIds data.ideaCards
    ideaLocations := db.ideaLocations
      ++ joinRows IdeaCard.id IdeaCard.relatedLocationIds data.ideaCards
    chapters := db.chapters ++ data.chapters.map Chapter.toRow
    chapterCharacters := db.chapterCharacters
      ++ joinRows Chapter.id Chapter.characterIds data.chapters
    chapterLocations := db.chapterLocations
      ++ joinRows Chapter.id Chapter.locationIds data.chapters
    tags := db.tags ++ data.tags }

/-- Source `POST`: the delete phase runs only when the caller currently owns
at least one story (`if existingStoryIds.length > 0`), then everything in the
body is inserted. -/
def dbPost (u : String) (data : Snapshot) (db : DB) : DB :=
  if (ownedStoryIds u db).isEmpty then insertPhase u data db
  else insertPhase u data (deletePhase u db)

/-- What a snapshot looks like after a save-then-load round trip: stories are
re-homed to the session user and idea-card tags are dropped (the `POST`
handler never stores them and the `GET` handler returns `tags: []`). -/
def Snapshot.asSaved (u : String) (S : Snapshot) : Snapshot :=
  { S with
    stories := S.stories.map (fun s => { s with userId := u })
    ideaCards := S.ideaCards.map (fun c => { c with tags := [] }) }

/-- Ids of stories in the database not owned by `u`. -/
def foreignStoryIds (u : String) (db : DB) : List String :=
  (db.stories.filter (fun s => s.userId != u)).map Story.id

/-- Ids of event rows not scoped to a story owned by `u`. -/
def foreignEventIds (u : String) (db : DB) : List String :=
  (db.events.filter
    (fun e => !(ownedStoryIds u db).contains e.storyId)).map EventRow.id

/-- Ids of lore rows not scoped to a story owned by `u`. -/
def foreignLoreIds (u : String) (db : DB) : List String :=
  (db.loreEntries.filter
    (fun l => !(ownedStoryIds u db).contains l.storyId)).map LoreRow.id

/-- Ids of idea-card rows not scoped to a story owned by `u`. -/
def foreignIdeaIds (u : String) (db : DB) : List String :=
  (db.ideaCards.filter
    (fun i => !(ownedStoryIds u db).contains i.storyId)).map IdeaRow.id

/-- Ids of chapter rows not scoped to a story owned by `u`. -/
def foreignChapterIds (u : String) (db : DB) : List String :=
  (db.chapters.filter
    (fun c => !(ownedStoryIds u db).contains c.storyId)).map ChapterRow.id

/-- Referential integrity of the database, as the schema's foreign keys
declare it: every child row's `story_id` names a story row, and every
join-table row's parent id names a row of its parent table. -/
structure DB.Wf (db : DB) : Prop where
  charFK : ∀ c ∈ db.characters, c.storyId ∈ db.stories.map Story.id
  locFK : ∀ l ∈ db.locations, l.storyId ∈ db.stories.map Story.id
  eventFK : ∀ e ∈ db.events, e.storyId ∈ db.stories.map Story.id
  relFK : ∀ r ∈ db.relationships, r.storyId ∈ db.stories.map Story.id
  loreFK : ∀ l ∈ db.loreEntries, l.storyId ∈ db.stories.map Story.id
  groupFK : ∀ g ∈ db.ideaGroups, g.storyId ∈ db.stories.map Story.id
  ideaFK : ∀ i ∈ db.ideaCards, i.storyId ∈ db.stories.map Story.id
  chapFK : ∀ c ∈ db.chapters, c.storyId ∈ db.stories.map Story.id
  tagFK : ∀ t ∈ db.tags, t.storyId ∈ db.stories.map Story.id
  evJoinFK : ∀ p ∈ db.eventCharacters, p.1 ∈ db.events.map EventRow.id
  loreChJoinFK : ∀ p ∈ db.loreCharacters, p.1 ∈ db.loreEntries.map LoreRow.id
  loreLocJoinFK : ∀ p ∈ db.loreLocations, p.1 ∈ db.loreEntries.map LoreRow.id
  loreEvJoinFK : ∀ p ∈ db.loreEvents, p.1 ∈ db.loreEntries.map LoreRow.id
  ideaChJoinFK : ∀ p ∈ db.ideaCharacters, p.1 ∈ db.ideaCards.map IdeaRow.id
  ideaLocJoinFK : ∀ p ∈ db.ideaLocations, p.1 ∈ db.ideaCards.map IdeaRow.id
  chapChJoinFK : ∀ p ∈ db.chapterCharacters, p.1 ∈ db.chapters.map ChapterRow.id
  chapLocJoinFK : ∀ p ∈ db.chapterLocations, p.1 ∈ db.chapters.map ChapterRow.id

/-- Freshness of a posted snapshot's ids relative to the rows the caller does
not own — the invariant the primary-key constraints and uuid generation
maintain across users. -/
structure Fresh (u : String) (S : Snapshot) (db : DB) : Prop where
  freshStories : ∀ s ∈ S.stories, s.id ∉ foreignStoryIds u db
  freshEvents : ∀ e ∈ S.events, e.id ∉ foreignEventIds u db
  freshLore : ∀ l ∈ S.loreEntries, l.id ∉ foreignLoreIds u db
  freshIdeas : ∀ i ∈ S.ideaCards, i.id ∉ foreignIdeaIds u db
  freshChapters : ∀ c ∈ S.chapters, c.id ∉ foreignChapterIds u db

/-- Self-containment of a snapshot: every entity is scoped to one of the
snapshot's own stories (the spec's Snapshot invariant). -/
structure Snapshot.SelfContained (S : Snapshot) : Prop where
  scCharacters : ∀ c ∈ S.characters, c.storyId ∈ S.stories.map Story.id
  scLocations : ∀ l ∈ S.locations, l.storyId ∈ S.stories.map Story.id
  scEvents : ∀ e ∈ S.events, e.storyId ∈ S.stories.map Story.id
  scRelationships : ∀ r ∈ S.relationships, r.storyId ∈ S.stories.map Story.id
  scLore : ∀ l ∈ S.loreEntries, l.storyId ∈ S.stories.map Story.id
  scGroups : ∀ g ∈ S.ideaGroups, g.storyId ∈ S.stories.map Story.id
  scIdeas : ∀ i ∈ S.ideaCards, i.storyId ∈ S.stories.map Story.id
  scChapters : ∀ c ∈ S.chapters, c.storyId ∈ S.stories.map Story.id
  scTags : ∀ t ∈ S.tags, t.storyId ∈ S.stories.map Story.id

/-- Distinctness of the ids of the snapshot entities that carry join tables,
needed for the per-parent join reconstruction to be unambiguous. -/
structure Snapshot.NodupJoinIds (S : Snapshot) : Prop where
  ndEvents : (S.events.map TimelineEvent.id).Nodup
  ndLore : (S.loreEntries.map LoreEntry.id).Nodup
  ndIdeas : (S.ideaCards.map IdeaCard.id).Nodup
  ndChapters : (S.chapters.map Chapter.id).Nodup

/-! Further generic list lemmas for the relational proofs. -/

theorem map_congr_mem {α β : Type} (l : List α) (f g : α → β)
    (h : ∀ a ∈ l, f a = g a) : l.map f = l.map g := by
  induction l with
  | nil => rfl
  | cons a t ih =>
    simp only [List.map_cons, h a (List.mem_cons_self a t),
      ih (fun b hb => h b (List.mem_cons_of_mem a hb))]

theorem filter_append_eq_right {α : Type} (l₁ l₂ : List α) (p : α → Bool)
    (h₁ : ∀ a ∈ l₁, p a = false) (h₂ : ∀ a ∈ l₂, p a = true) :
    (l₁ ++ l₂).filter p = l₂ := by
  rw [List.filter_append, filter_eq_nil_of _ _ h₁, filter_eq_self_of _ _ h₂,
    List.nil_append]

theorem contains_true {l : List String} {x : String} (h : x ∈ l) :
    l.contains x = true := by
  simpa using h

theorem contains_false {l : List String} {x : String} (h : x ∉ l) :
    l.contains x = false := by
  cases hc : l.contains x
  · rfl
  · exact absurd (by simpa using hc) h

theorem lookupJoin_append (r₁ r₂ : List (String × String)) (k : String) :
    lookupJoin (r₁ ++ r₂) k = lookupJoin r₁ k ++ lookupJoin r₂ k := by
  simp [lookupJoin, List.filter_append]

theorem lookupJoin_eq_nil (rows : List (String × String)) (k : String)
    (h : ∀ p ∈ rows, p.1 ≠ k) : lookupJoin rows k = [] := by
  unfold lookupJoin
  rw [filter_eq_nil_of _ _ (fun p hp => beq_eq_false_iff_ne.mpr (h p hp))]
  rfl

theorem mem_joinRows_key {α : Type} {key : α → String} {vals : α → List String}
    {l : List α} {p : String × String} (hp : p ∈ joinRows key vals l) :
    p.1 ∈ l.map key := by
  simp only [joinRows, List.mem_flatMap, List.mem_map] at hp
  obtain ⟨a, ha, v, _, rfl⟩ := hp
  exact List.mem_map.mpr ⟨a, ha, rfl⟩

theorem lookupJoin_self {α : Type} (key : α → String) (a : α)
    (vs : List String) :
    lookupJoin (vs.map (fun v => (key a, v))) (key a) = vs := by
  unfold lookupJoin
  rw [filter_eq_self_of _ _ (fun p hp => by
    obtain ⟨v, _, rfl⟩ := List.mem_map.mp hp
    exact beq_self_eq_true _)]
  rw [List.map_map]
  exact List.map_id _

theorem lookupJoin_joinRows {α : Type} (key : α → String)
    (vals : α → List String) (l : List α) (hnd : (l.map key).Nodup)
    {a : α} (ha : a ∈ l) :
    lookupJoin (joinRows key vals l) (key a) = vals a := by
  induction l with
  | nil => cases ha
  | cons b t ih =>
    have hnd' : key b ∉ t.map key ∧ (t.map key).Nodup := by
      simpa [List.nodup_cons] using hnd
    have hsplit : joinRows key vals (b :: t)
        = (vals b).map (fun v => (key b, v)) ++ joinRows key vals t := by
      simp [joinRows]
    rw [hsplit, lookupJoin_append]
    rcases List.mem_cons.mp ha with rfl | hat
    · have h2 : lookupJoin (joinRows key vals t) (key a) = [] :=
        lookupJoin_eq_nil _ _ (fun p hp hpk => by
          have := mem_joinRows_key hp
          rw [hpk] at this
          exact hnd'.1 this)
      rw [h2, List.append_nil, lookupJoin_self]
    · have hne : ∀ p ∈ (vals b).map (fun v => (key b, v)), p.1 ≠ key a := by
        intro p hp
        obtain ⟨v, _, rfl⟩ := List.mem_map.mp hp
        intro e
        have hmem : key a ∈ t.map key := List.mem_map.mpr ⟨a, hat, rfl⟩
        rw [← e] at hmem
        exact hnd'.1 hmem
      rw [lookupJoin_eq_nil _ _ hne, List.nil_append, ih hnd'.2 hat]

theorem beq_false_of_bne_true {a b : String} (h : (a != b) = true) :
    (a == b) = false := by
  cases hc : a == b
  · rfl
  · rw [show (a != b) = !(a == b) from rfl, hc] at h
    simp at h

theorem bne_true_of_beq_false {a b : String} (h : (a == b) = false) :
    (a != b) = true := by
  rw [show (a != b) = !(a == b) from rfl, h]
  rfl

theorem not_mem_of_contains_false {l : List String} {x : String}
    (h : l.contains x = false) : x ∉ l := by
  intro hm
  rw [contains_true hm] at h
  cases h

theorem mem_filter_or {α : Type} (l : List α) (p : α → Bool) {x : α}
    (hx : x ∈ l) : x ∈ l.filter p ∨ x ∈ l.filter (fun a => !p a) := by
  cases hc : p x
  · exact Or.inr (List.mem_filter.mpr ⟨hx, by simp [hc]⟩)
  · exact Or.inl (List.mem_filter.mpr ⟨hx, hc⟩)

/-- A story id present in the database but not owned by `u` is foreign. -/
theorem owned_mem_foreign (u : String) (db : DB) {x : String}
    (hx : x ∈ db.stories.map Story.id) (hno : x ∉ ownedStoryIds u db) :
    x ∈ foreignStoryIds u db := by
  obtain ⟨s, hs, rfl⟩ := List.mem_map.mp hx
  cases hc : s.userId == u
  · exact List.mem_map.mpr
      ⟨s, List.mem_filter.mpr ⟨hs, bne_true_of_beq_false hc⟩, rfl⟩
  · exact absurd
      (List.mem_map.mpr ⟨s, List.mem_filter.mpr ⟨hs, hc⟩, rfl⟩) hno

/-- A database story id that is not owned by `u` never collides with a story
id of a fresh posted snapshot. -/
theorem survivor_storyId_not_in_newIds (u : String) (S : Snapshot) (db : DB)
    (fr : Fresh u S db) {x : String} (hx : x ∈ db.stories.map Story.id)
    (hno : x ∉ ownedStoryIds u db) :
    (S.stories.map Story.id).contains x = false := by
  apply contains_false
  intro hmem
  obtain ⟨s, hs, hid⟩ := List.mem_map.mp hmem
  have hf := owned_mem_foreign u db hx hno
  rw [← hid] at hf
  exact fr.freshStories s hs hf

/-- Child rows surviving the delete phase are scoped to foreign stories, so
the retrieval filter for the posted snapshot's story ids drops them all. -/
theorem survivor_filter_nil {α : Type} (u : String) (S : Snapshot) (db : DB)
    (fr : Fresh u S db) (sid : α → String) (l : List α)
    (hFK : ∀ a ∈ l, sid a ∈ db.stories.map Story.id) :
    ∀ a ∈ l.filter (fun a => !(ownedStoryIds u db).contains (sid a)),
      (S.stories.map Story.id).contains (sid a) = false := by
  intro a ha
  have hm := List.mem_filter.mp ha
  have hcf : (ownedStoryIds u db).contains (sid a) = false := by
    simpa using hm.2
  exact survivor_storyId_not_in_newIds u S db fr (hFK a hm.1)
    (not_mem_of_contains_false hcf)

/-- A parent id present in a parent table but not among the delete-phase
subselect's ids belongs to a row scoped outside the owned stories. -/
theorem join_survivor_foreign {β : Type} (parents : List β)
    (pid sid : β → String) (owned : List String) {q : String}
    (hq : q ∈ parents.map pid)
    (hnd : q ∉ (parents.filter (fun b => owned.contains (sid b))).map pid) :
    q ∈ (parents.filter (fun b => !owned.contains (sid b))).map pid := by
  obtain ⟨b, hb, rfl⟩ := List.mem_map.mp hq
  rcases mem_filter_or parents (fun b => owned.contains (sid b)) hb with h | h
  · exact absurd (List.mem_map.mpr ⟨b, h, rfl⟩) hnd
  · exact List.mem_map.mpr ⟨b, h, rfl⟩

/-- When the caller owns no stories, every delete-phase filter keeps its
table unchanged (matching the source's skipped delete block). -/
theorem deletePhase_of_no_owned (u : String) (db : DB)
    (h : ownedStoryIds u db = []) : deletePhase u db = db := by
  have hst : ∀ s ∈ db.stories, (s.userId == u) = false := by
    intro s hs
    cases hc : s.userId == u
    · rfl
    · exfalso
      have hm : s.id ∈ ownedStoryIds u db :=
        List.mem_map.mpr ⟨s, List.mem_filter.mpr ⟨hs, hc⟩, rfl⟩
      rw [h] at hm
      exact List.not_mem_nil _ hm
  have hbne : ∀ s ∈ db.stories, (s.userId != u) = true := by
    intro s hs
    exact bne_true_of_beq_false (hst s hs)
  simp only [deletePhase, h, List.contains_nil, Bool.not_false,
    List.filter_false, List.map_nil, List.filter_true]
  rw [filter_eq_self_of _ _ hbne]

/-- The `POST` handler always behaves as delete-then-insert. -/
theorem dbPost_eq (u : String) (S : Snapshot) (db : DB) :
    dbPost u S db = insertPhase u S (deletePhase u db) := by
  unfold dbPost
  split
  · next hemp =>
    have h : ownedStoryIds u db = [] := by
      simpa [List.isEmpty_iff] using hemp
    rw [deletePhase_of_no_owned u db h]
  · rfl

/-- Stories owned by `u` after a post are exactly the posted stories,
re-homed. -/
theorem stories_after (u : String) (S : Snapshot) (db : DB) :
    (insertPhase u S (deletePhase u db)).stories.filter
        (fun s => s.userId == u)
      = S.stories.map (fun s => { s with userId := u }) := by
  show ((db.stories.filter (fun (s : Story) => s.userId != u))
      ++ S.stories.map (fun (s : Story) => { s with userId := u })).filter
        (fun (s : Story) => s.userId == u) = _
  apply filter_append_eq_right
  · intro s hs
    exact beq_false_of_bne_true (List.mem_filter.mp hs).2
  · intro s hs
    obtain ⟨s0, _, rfl⟩ := List.mem_map.mp hs
    exact beq_self_eq_true u

/-- Story ids owned by `u` after a post are the posted snapshot's story ids. -/
theorem storyIds_after (u : String) (S : Snapshot) (db : DB) :
    ((insertPhase u S (deletePhase u db)).stories.filter
        (fun s => s.userId == u)).map Story.id
      = S.stories.map Story.id := by
  rw [stories_after, List.map_map]
  exact map_congr_mem _ _ _ (fun s _ => rfl)

/-- Same fact phrased through `ownedStoryIds`. -/
theorem ownedStoryIds_after (u : String) (S : Snapshot) (db : DB) :
    ownedStoryIds u (insertPhase u S (deletePhase u db))
      = S.stories.map Story.id :=
  storyIds_after u S db

/-- Retrieval of a child table after the delete/insert phases: survivors are
foreign and are dropped by the story-id filter, the inserted rows all pass. -/
theorem simple_table_after {α : Type} (u : String) (S : Snapshot) (db : DB)
    (fr : Fresh u S db) (sid : α → String) (oldl newl : List α)
    (hFK : ∀ a ∈ oldl, sid a ∈ db.stories.map Story.id)
    (hSC : ∀ a ∈ newl, sid a ∈ S.stories.map Story.id) :
    ((oldl.filter (fun a => !(ownedStoryIds u db).contains (sid a))) ++ newl).filter
        (fun a => (S.stories.map Story.id).contains (sid a)) = newl :=
  filter_append_eq_right _ _ _ (survivor_filter_nil u S db fr sid oldl hFK)
    (fun a ha => contains_true (hSC a ha))

/-- Join lookup after the delete/insert phases: surviving join rows belong to
foreign parents and never match a freshly posted parent id, so the lookup
returns exactly the posted parent's id list. -/
theorem lookup_post_join {α β : Type}
    (dbrows : List (String × String)) (dbparents : List β)
    (pid sid : β → String) (owned : List String)
    (key : α → String) (vals : α → List String) (snap : List α)
    (hFK : ∀ p ∈ dbrows, p.1 ∈ dbparents.map pid)
    (hnd : (snap.map key).Nodup) {a : α} (ha : a ∈ snap)
    (hfresh : key a ∉ (dbparents.filter
      (fun b => !owned.contains (sid b))).map pid) :
    lookupJoin ((dbrows.filter (fun p =>
        !((dbparents.filter
            (fun b => owned.contains (sid b))).map pid).contains p.1))
      ++ joinRows key vals snap) (key a) = vals a := by
  rw [lookupJoin_append]
  have hleft : lookupJoin (dbrows.filter (fun p =>
      !((dbparents.filter
          (fun b => owned.contains (sid b))).map pid).contains p.1)) (key a)
      = [] := by
    apply lookupJoin_eq_nil
    intro p hp hpe
    have hm := List.mem_filter.mp hp
    have hnd2 : p.1 ∉ (dbparents.filter
        (fun b => owned.contains (sid b))).map pid :=
      not_mem_of_contains_false (by simpa using hm.2)
    have hforeign := join_survivor_foreign dbparents pid sid owned
      (hFK p hm.1) hnd2
    rw [hpe] at hforeign
    exact hfresh hforeign
  rw [hleft, List.nil_append]
  exact lookupJoin_joinRows key vals snap hnd ha

/-- Core round-trip lemma: a `GET` immediately after a `POST` of snapshot `S`
retrieves exactly `S` as saved (stories re-homed, idea-card tags dropped),
whatever well-formed fresh state the database held before. -/
theorem dbGet_dbPost (u : String) (S : Snapshot) (db : DB) (wf : db.Wf)
    (fr : Fresh u S db) (sc : S.SelfContained) (nd : S.NodupJoinIds) :
    dbGet u (dbPost u S db) = S.asSaved u := by
  rw [dbPost_eq]
  by_cases hS : S.stories = []
  · have hch : S.characters = [] :=
      List.eq_nil_iff_forall_not_mem.mpr (fun a ha => by
        have h := sc.scCharacters a ha
        rw [hS] at h
        simp at h)
    have hlo : S.locations = [] :=
      List.eq_nil_iff_forall_not_mem.mpr (fun a ha => by
        have h := sc.scLocations a ha
        rw [hS] at h
        simp at h)
    have hev : S.events = [] :=
      List.eq_nil_iff_forall_not_mem.mpr (fun a ha => by
        have h := sc.scEvents a ha
        rw [hS] at h
        simp at h)
    have hre : S.relationships = [] :=
      List.eq_nil_iff_forall_not_mem.mpr (fun a ha => by
        have h := sc.scRelationships a ha
        rw [hS] at h
        simp at h)
    have hlr : S.loreEntries = [] :=
      List.eq_nil_iff_forall_not_mem.mpr (fun a ha => by
        have h := sc.scLore a ha
        rw [hS] at h
        simp at h)
    have hgr : S.ideaGroups = [] :=
      List.eq_nil_iff_forall_not_mem.mpr (fun a ha => by
        have h := sc.scGroups a ha
        rw [hS] at h
        simp at h)
    have hid : S.ideaCards = [] :=
      List.eq_nil_iff_forall_not_mem.mpr (fun a ha => by
        have h := sc.scIdeas a ha
        rw [hS] at h
        simp at h)
    have hcp : S.chapters = [] :=
      List.eq_nil_iff_forall_not_mem.mpr (fun a ha => by
        have h := sc.scChapters a ha
        rw [hS] at h
        simp at h)
    have htg : S.tags = [] :=
      List.eq_nil_iff_forall_not_mem.mpr (fun a ha => by
        have h := sc.scTags a ha
        rw [hS] at h
        simp at h)
    have hids : ((insertPhase u S (deletePhase u db)).stories.filter
        (fun s => s.userId == u)).map Story.id = [] := by
      rw [storyIds_after, hS]
      rfl
    simp only [dbGet]
    rw [hids]
    simp only [List.isEmpty_nil]
    rw [if_pos trivial]
    simp [Snapshot.asSaved, Snapshot.empty, hS, hch, hlo, hev, hre, hlr, hgr,
      hid, hcp, htg]
  · have hne : ¬ ((((insertPhase u S (deletePhase u db)).stories.filter
        (fun s => s.userId == u)).map Story.id).isEmpty = true) := by
      rw [storyIds_after]
      simp [List.isEmpty_iff, List.map_eq_nil_iff, hS]
    have hchar : (insertPhase u S (deletePhase u db)).characters.filter
        (fun c => (S.stories.map Story.id).contains c.storyId)
        = S.characters :=
      simple_table_after u S db fr Character.storyId db.characters
        S.characters wf.charFK sc.scCharacters
    have hloc : (insertPhase u S (deletePhase u db)).locations.filter
        (fun l => (S.stories.map Story.id).contains l.storyId)
        = S.locations :=
      simple_table_after u S db fr Location.storyId db.locations
        S.locations wf.locFK sc.scLocations
    have hrel : (insertPhase u S (deletePhase u db)).relationships.filter
        (fun r => (S.stories.map Story.id).contains r.storyId)
        = S.relationships :=
      simple_table_after u S db fr CharacterRelationship.storyId
        db.relationships S.relationships wf.relFK sc.scRelationships
    have hgrp : (insertPhase u S (deletePhase u db)).ideaGroups.filter
        (fun g => (S.stories.map Story.id).contains g.storyId)
        = S.ideaGroups :=
      simple_table_after u S db fr IdeaGroup.storyId db.ideaGroups
        S.ideaGroups wf.groupFK sc.scGroups
    have htag : (insertPhase u S (deletePhase u db)).tags.filter
        (fun t => (S.stories.map Story.id).contains t.storyId)
        = S.tags :=
      simple_table_after u S db fr Tag.storyId db.tags S.tags wf.tagFK
        sc.scTags
    have hevt : ((insertPhase u S (deletePhase u db)).events.filter
        (fun e => (S.stories.map Story.id).contains e.storyId)).map
        (fun e => e.toEvent
          (lookupJoin (insertPhase u S (deletePhase u db)).eventCharacters e.id))
        = S.events := by
      have hrows : (insertPhase u S (deletePhase u db)).events.filter
          (fun e => (S.stories.map Story.id).contains e.storyId)
          = S.events.map TimelineEvent.toRow :=
        simple_table_after u S db fr EventRow.storyId db.events
          (S.events.map TimelineEvent.toRow) wf.eventFK
          (fun r hr => by
            obtain ⟨e, he, rfl⟩ := List.mem_map.mp hr
            exact sc.scEvents e he)
      rw [hrows, List.map_map]
      have h : ∀ e ∈ S.events,
          ((fun e => EventRow.toEvent e
              (lookupJoin (insertPhase u S (deletePhase u db)).eventCharacters
                e.id)) ∘ TimelineEvent.toRow) e = id e := by
        intro e he
        have hj : lookupJoin
            (insertPhase u S (deletePhase u db)).eventCharacters e.id
            = e.characterIds :=
          lookup_post_join db.eventCharacters db.events EventRow.id
            EventRow.storyId (ownedStoryIds u db) TimelineEvent.id
            TimelineEvent.characterIds S.events wf.evJoinFK nd.ndEvents he
            (fr.freshEvents e he)
        show (TimelineEvent.toRow e).toEvent
            (lookupJoin (insertPhase u S (deletePhase u db)).eventCharacters
              (TimelineEvent.toRow e).id) = e
        rw [show (TimelineEvent.toRow e).id = e.id from rfl, hj]
        rfl
      rw [map_congr_mem _ _ _ h, List.map_id]
    have hlre : ((insertPhase u S (deletePhase u db)).loreEntries.filter
        (fun l => (S.stories.map Story.id).contains l.storyId)).map
        (fun l => l.toLore
          (lookupJoin (insertPhase u S (deletePhase u db)).loreCharacters l.id)
          (lookupJoin (insertPhase u S (deletePhase u db)).loreLocations l.id)
          (lookupJoin (insertPhase u S (deletePhase u db)).loreEvents l.id))
        = S.loreEntries := by
      have hrows : (insertPhase u S (deletePhase u db)).loreEntries.filter
          (fun l => (S.stories.map Story.id).contains l.storyId)
          = S.loreEntries.map LoreEntry.toRow :=
        simple_table_after u S db fr LoreRow.storyId db.loreEntries
          (S.loreEntries.map LoreEntry.toRow) wf.loreFK
          (fun r hr => by
            obtain ⟨l, hl, rfl⟩ := List.mem_map.mp hr
            exact sc.scLore l hl)
      rw [hrows, List.map_map]
      have h : ∀ l ∈ S.loreEntries,
          ((fun l => LoreRow.toLore l
              (lookupJoin (insertPhase u S (deletePhase u db)).loreCharacters
                l.id)
              (lookupJoin (insertPhase u S (deletePhase u db)).loreLocations
                l.id)
              (lookupJoin (insertPhase u S (deletePhase u db)).loreEvents
                l.id)) ∘ LoreEntry.toRow) l = id l := by
        intro l hl
        have hj1 : lookupJoin
            (insertPhase u S (deletePhase u db)).loreCharacters l.id
            = l.relatedCharacterIds :=
          lookup_post_join db.loreCharacters db.loreEntries LoreRow.id
            LoreRow.storyId (ownedStoryIds u db) LoreEntry.id
            LoreEntry.relatedCharacterIds S.loreEntries wf.loreChJoinFK
            nd.ndLore hl (fr.freshLore l hl)
        have hj2 : lookupJoin
            (insertPhase u S (deletePhase u db)).loreLocations l.id
            = l.relatedLocationIds :=
          lookup_post_join db.loreLocations db.loreEntries LoreRow.id
            LoreRow.storyId (ownedStoryIds u db) LoreEntry.id
            LoreEntry.relatedLocationIds S.loreEntries wf.loreLocJoinFK
            nd.ndLore hl (fr.freshLore l hl)
        have hj3 : lookupJoin
            (insertPhase u S (deletePhase u db)).loreEvents l.id
            = l.relatedEventIds :=
          lookup_post_join db.loreEvents db.loreEntries LoreRow.id
            LoreRow.storyId (ownedStoryIds u db) LoreEntry.id
            LoreEntry.relatedEventIds S.loreEntries wf.loreEvJoinFK
            nd.ndLore hl (fr.freshLore l hl)
        show (LoreEntry.toRow l).toLore
            (lookupJoin (insertPhase u S (deletePhase u db)).loreCharacters
              (LoreEntry.toRow l).id)
            (lookupJoin (insertPhase u S (deletePhase u db)).loreLocations
              (LoreEntry.toRow l).id)
            (lookupJoin (insertPhase u S (deletePhase u db)).loreEvents
              (LoreEntry.toRow l).id) = l
        rw [show (LoreEntry.toRow l).id = l.id from rfl, hj1, hj2, hj3]
        rfl
      rw [map_congr_mem _ _ _ h, List.map_id]
    have hidc : ((insertPhase u S (deletePhase u db)).ideaCards.filter
        (fun i => (S.stories.map Story.id).contains i.storyId)).map
        (fun i => i.toCard
          (lookupJoin (insertPhase u S (deletePhase u db)).ideaCharacters i.id)
          (lookupJoin (insertPhase u S (deletePhase u db)).ideaLocations i.id))
        = S.ideaCards.map (fun c => { c with tags := [] }) := by
      have hrows : (insertPhase u S (deletePhase u db)).ideaCards.filter
          (fun i => (S.stories.map Story.id).contains i.storyId)
          = S.ideaCards.map IdeaCard.toRow :=
        simple_table_after u S db fr IdeaRow.storyId db.ideaCards
          (S.ideaCards.map IdeaCard.toRow) wf.ideaFK
          (fun r hr => by
            obtain ⟨i, hi, rfl⟩ := List.mem_map.mp hr
            exact sc.scIdeas i hi)
      rw [hrows, List.map_map]
      have h : ∀ i ∈ S.ideaCards,
          ((fun i => IdeaRow.toCard i
              (lookupJoin (insertPhase u S (deletePhase u db)).ideaCharacters
                i.id)
              (lookupJoin (insertPhase u S (deletePhase u db)).ideaLocations
                i.id)) ∘ IdeaCard.toRow) i
            = (fun c => { c with tags := ([] : List String) }) i := by
        intro i hi
        have hj1 : lookupJoin
            (insertPhase u S (deletePhase u db)).ideaCharacters i.id
            = i.relatedCharacterIds :=
          lookup_post_join db.ideaCharacters db.ideaCards IdeaRow.id
            IdeaRow.storyId (ownedStoryIds u db) IdeaCard.id
            IdeaCard.relatedCharacterIds S.ideaCards wf.ideaChJoinFK
            nd.ndIdeas hi (fr.freshIdeas i hi)
        have hj2 : lookupJoin
            (insertPhase u S (deletePhase u db)).ideaLocations i.id
            = i.relatedLocationIds :=
          lookup_post_join db.ideaLocations db.ideaCards IdeaRow.id
            IdeaRow.storyId (ownedStoryIds u db) IdeaCard.id
            IdeaCard.relatedLocationIds S.ideaCards wf.ideaLocJoinFK
            nd.ndIdeas hi (fr.freshIdeas i hi)
        show (IdeaCard.toRow i).toCard
            (lookupJoin (insertPhase u S (deletePhase u db)).ideaCharacters
              (IdeaCard.toRow i).id)
            (lookupJoin (insertPhase u S (deletePhase u db)).ideaLocations
              (IdeaCard.toRow i).id) = { i with tags := ([] : List String) }
        rw [show (IdeaCard.toRow i).id = i.id from rfl, hj1, hj2]
        rfl
      rw [map_congr_mem _ _ _ h]
    have hchp : ((insertPhase u S (deletePhase u db)).chapters.filter
        (fun c => (S.stories.map Story.id).contains c.storyId)).map
        (fun c => c.toChapter
          (lookupJoin
            (insertPhase u S (deletePhase u db)).chapterCharacters c.id)
          (lookupJoin
            (insertPhase u S (deletePhase u db)).chapterLocations c.id))
        = S.chapters := by
      have hrows : (insertPhase u S (deletePhase u db)).chapters.filter
          (fun c => (S.stories.map Story.id).contains c.storyId)
          = S.chapters.map Chapter.toRow :=
        simple_table_after u S db fr ChapterRow.storyId db.chapters
          (S.chapters.map Chapter.toRow) wf.chapFK
          (fun r hr => by
            obtain ⟨c, hc, rfl⟩ := List.mem_map.mp hr
            exact sc.scChapters c hc)
      rw [hrows, List.map_map]
      have h : ∀ c ∈ S.chapters,
          ((fun c => ChapterRow.toChapter c
              (lookupJoin
                (insertPhase u S (deletePhase u db)).chapterCharacters c.id)
              (lookupJoin
                (insertPhase u S (deletePhase u db)).chapterLocations c.id))
            ∘ Chapter.toRow) c = id c := by
        intro c hc
        have hj1 : lookupJoin
            (insertPhase u S (deletePhase u db)).chapterCharacters c.id
            = c.characterIds :=
          lookup_post_join db.chapterCharacters db.chapters ChapterRow.id
            ChapterRow.storyId (ownedStoryIds u db) Chapter.id
            Chapter.characterIds S.chapters wf.chapChJoinFK nd.ndChapters hc
            (fr.freshChapters c hc)
        have hj2 : lookupJoin
            (insertPhase u S (deletePhase u db)).chapterLocations c.id
            = c.locationIds :=
          lookup_post_join db.chapterLocations db.chapters ChapterRow.id
            ChapterRow.storyId (ownedStoryIds u db) Chapter.id
            Chapter.locationIds S.chapters wf.chapLocJoinFK nd.ndChapters hc
            (fr.freshChapters c hc)
        show (Chapter.toRow c).toChapter
            (lookupJoin
              (insertPhase u S (deletePhase u db)).chapterCharacters
              (Chapter.toRow c).id)
            (lookupJoin
              (insertPhase u S (deletePhase u db)).chapterLocations
              (Chapter.toRow c).id) = c
        rw [show (Chapter.toRow c).id = c.id from rfl, hj1, hj2]
        rfl
      rw [map_congr_mem _ _ _ h, List.map_id]
    simp only [dbGet]
    rw [if_neg hne, storyIds_after, stories_after, hchar, hloc, hrel, hgrp,
      htag, hevt, hlre, hidc, hchp]
    rfl

theorem filter_append_eq_left {α : Type} (l₁ l₂ : List α) (p : α → Bool)
    (h₁ : ∀ a ∈ l₁, p a = true) (h₂ : ∀ a ∈ l₂, p a = false) :
    (l₁ ++ l₂).filter p = l₁ := by
  rw [List.filter_append, filter_eq_self_of _ _ h₁, filter_eq_nil_of _ _ h₂,
    List.append_nil]

/-- Child-table referential integrity survives a post. -/
theorem childFK_after {α : Type} (u : String) (S : Snapshot) (db : DB)
    (sid : α → String) (oldl newl : List α)
    (hFKold : ∀ a ∈ oldl, sid a ∈ db.stories.map Story.id)
    (hFKnew : ∀ a ∈ newl, sid a ∈ S.stories.map Story.id) :
    ∀ a ∈ (oldl.filter (fun a => !(ownedStoryIds u db).contains (sid a))) ++ newl,
      sid a ∈ foreignStoryIds u db ++ S.stories.map Story.id := by
  intro a ha
  rcases List.mem_append.mp ha with h | h
  · have hm := List.mem_filter.mp h
    exact List.mem_append.mpr (Or.inl (owned_mem_foreign u db (hFKold a hm.1)
      (not_mem_of_contains_false (by simpa using hm.2))))
  · exact List.mem_append.mpr (Or.inr (hFKnew a h))

/-- Join-table referential integrity survives a post. -/
theorem joinFK_after {α β : Type} (owned : List String)
    (dbrows : List (String × String)) (dbparents : List β)
    (pid sid : β → String) (key : α → String) (vals : α → List String)
    (snap : List α)
    (hFK : ∀ p ∈ dbrows, p.1 ∈ dbparents.map pid) :
    ∀ p ∈ (dbrows.filter (fun p =>
        !((dbparents.filter
            (fun b => owned.contains (sid b))).map pid).contains p.1))
      ++ joinRows key vals snap,
      p.1 ∈ (dbparents.filter (fun b => !owned.contains (sid b))).map pid
        ++ snap.map key := by
  intro p hp
  rcases List.mem_append.mp hp with h | h
  · have hm := List.mem_filter.mp h
    exact List.mem_append.mpr (Or.inl (join_survivor_foreign dbparents pid sid
      owned (hFK p hm.1) (not_mem_of_contains_false (by simpa using hm.2))))
  · exact List.mem_append.mpr (Or.inr (mem_joinRows_key h))

/-- Story ids present after a post: the foreign survivors then the posted ids. -/
theorem storyIdsAll_after (u : String) (S : Snapshot) (db : DB) :
    (insertPhase u S (deletePhase u db)).stories.map Story.id
      = foreignStoryIds u db ++ S.stories.map Story.id := by
  show ((db.stories.filter (fun (s : Story) => s.userId != u))
      ++ S.stories.map (fun (s : Story) => { s with userId := u })).map Story.id
      = _
  rw [List.map_append, List.map_map]
  congr 1

/-- Event-row ids present after a post: foreign survivors then posted ids. -/
theorem eventIdsAll_after (u : String) (S : Snapshot) (db : DB) :
    (insertPhase u S (deletePhase u db)).events.map EventRow.id
      = (db.events.filter
          (fun b => !(ownedStoryIds u db).contains b.storyId)).map EventRow.id
        ++ S.events.map TimelineEvent.id := by
  show ((db.events.filter
      (fun (b : EventRow) => !(ownedStoryIds u db).contains b.storyId))
      ++ S.events.map TimelineEvent.toRow).map EventRow.id = _
  rw [List.map_append, List.map_map]
  congr 1

/-- Lore-row ids present after a post. -/
theorem loreIdsAll_after (u : String) (S : Snapshot) (db : DB) :
    (insertPhase u S (deletePhase u db)).loreEntries.map LoreRow.id
      = (db.loreEntries.filter
          (fun b => !(ownedStoryIds u db).contains b.storyId)).map LoreRow.id
        ++ S.loreEntries.map LoreEntry.id := by
  show ((db.loreEntries.filter
      (fun (b : LoreRow) => !(ownedStoryIds u db).contains b.storyId))
      ++ S.loreEntries.map LoreEntry.toRow).map LoreRow.id = _
  rw [List.map_append, List.map_map]
  congr 1

/-- Idea-row ids present after a post. -/
theorem ideaIdsAll_after (u : String) (S : Snapshot) (db : DB) :
    (insertPhase u S (deletePhase u db)).ideaCards.map IdeaRow.id
      = (db.ideaCards.filter
          (fun b => !(ownedStoryIds u db).contains b.storyId)).map IdeaRow.id
        ++ S.ideaCards.map IdeaCard.id := by
  show ((db.ideaCards.filter
      (fun (b : IdeaRow) => !(ownedStoryIds u db).contains b.storyId))
      ++ S.ideaCards.map IdeaCard.toRow).map IdeaRow.id = _
  rw [List.map_append, List.map_map]
  congr 1

/-- Chapter-row ids present after a post. -/
theorem chapterIdsAll_after (u : String) (S : Snapshot) (db : DB) :
    (insertPhase u S (deletePhase u db)).chapters.map ChapterRow.id
      = (db.chapters.filter
          (fun b => !(ownedStoryIds u db).contains b.storyId)).map ChapterRow.id
        ++ S.chapters.map Chapter.id := by
  show ((db.chapters.filter
      (fun (b : ChapterRow) => !(ownedStoryIds u db).contains b.storyId))
      ++ S.chapters.map Chapter.toRow).map ChapterRow.id = _
  rw [List.map_append, List.map_map]
  congr 1

/-- Foreign story ids are unchanged by a post. -/
theorem foreignStoryIds_after (u : String) (S : Snapshot) (db : DB) :
    foreignStoryIds u (insertPhase u S (deletePhase u db))
      = foreignStoryIds u db := by
  show (((db.stories.filter (fun (s : Story) => s.userId != u))
      ++ S.stories.map (fun (s : Story) => { s with userId := u })).filter
        (fun (s : Story) => s.userId != u)).map Story.id = _
  rw [filter_append_eq_left _ _ _ (fun s hs => (List.mem_filter.mp hs).2)
    (fun s hs => by
      obtain ⟨s0, _, rfl⟩ := List.mem_map.mp hs
      simp)]
  rfl

/-- Foreign event-row ids are unchanged by a post of a self-contained fresh
snapshot. -/
theorem foreignEventIds_after (u : String) (S : Snapshot) (db : DB)
    (wf : db.Wf) (fr : Fresh u S db) (sc : S.SelfContained) :
    foreignEventIds u (insertPhase u S (deletePhase u db))
      = foreignEventIds u db := by
  show (((db.events.filter
      (fun (b : EventRow) => !(ownedStoryIds u db).contains b.storyId))
      ++ S.events.map TimelineEvent.toRow).filter
        (fun e => !(ownedStoryIds
          u (insertPhase u S (deletePhase u db))).contains e.storyId)).map
      EventRow.id = _
  simp only [ownedStoryIds_after u S db]
  rw [filter_append_eq_left _ _ _
    (fun r hr => by
      rw [survivor_filter_nil u S db fr EventRow.storyId db.events
        wf.eventFK r hr]
      rfl)
    (fun r hr => by
      obtain ⟨e, he, rfl⟩ := List.mem_map.mp hr
      show (!(S.stories.map Story.id).contains e.storyId) = false
      rw [contains_true (sc.scEvents e he)]
      rfl)]
  rfl

/-- Foreign lore-row ids are unchanged by a post. -/
theorem foreignLoreIds_after (u : String) (S : Snapshot) (db : DB)
    (wf : db.Wf) (fr : Fresh u S db) (sc : S.SelfContained) :
    foreignLoreIds u (insertPhase u S (deletePhase u db))
      = foreignLoreIds u db := by
  show (((db.loreEntries.filter
      (fun (b : LoreRow) => !(ownedStoryIds u db).contains b.storyId))
      ++ S.loreEntries.map LoreEntry.toRow).filter
        (fun l => !(ownedStoryIds
          u (insertPhase u S (deletePhase u db))).contains l.storyId)).map
      LoreRow.id = _
  simp only [ownedStoryIds_after u S db]
  rw [filter_append_eq_left _ _ _
    (fun r hr => by
      rw [survivor_filter_nil u S db fr LoreRow.storyId db.loreEntries
        wf.loreFK r hr]
      rfl)
    (fun r hr => by
      obtain ⟨l, hl, rfl⟩ := List.mem_map.mp hr
      show (!(S.stories.map Story.id).contains l.storyId) = false
      rw [contains_true (sc.scLore l hl)]
      rfl)]
  rfl

/-- Foreign idea-row ids are unchanged by a post. -/
theorem foreignIdeaIds_after (u : String) (S : Snapshot) (db : DB)
    (wf : db.Wf) (fr : Fresh u S db) (sc : S.SelfContained) :
    foreignIdeaIds u (insertPhase u S (deletePhase u db))
      = foreignIdeaIds u db := by
  show (((db.ideaCards.filter
      (fun (b : IdeaRow) => !(ownedStoryIds u db).contains b.storyId))
      ++ S.ideaCards.map IdeaCard.toRow).filter
        (fun i => !(ownedStoryIds
          u (insertPhase u S (deletePhase u db))).contains i.storyId)).map
      IdeaRow.id = _
  simp only [ownedStoryIds_after u S db]
  rw [filter_append_eq_left _ _ _
    (fun r hr => by
      rw [survivor_filter_nil u S db fr IdeaRow.storyId db.ideaCards
        wf.ideaFK r hr]
      rfl)
    (fun r hr => by
      obtain ⟨i, hi, rfl⟩ := List.mem_map.mp hr
      show (!(S.stories.map Story.id).contains i.storyId) = false
      rw [contains_true (sc.scIdeas i hi)]
      rfl)]
  rfl

/-- Foreign chapter-row ids are unchanged by a post. -/
theorem foreignChapterIds_after (u : String) (S : Snapshot) (db : DB)
    (wf : db.Wf) (fr : Fresh u S db) (sc : S.SelfContained) :
    foreignChapterIds u (insertPhase u S (deletePhase u db))
      = foreignChapterIds u db := by
  show (((db.chapters.filter
      (fun (b : ChapterRow) => !(ownedStoryIds u db).contains b.storyId))
      ++ S.chapters.map Chapter.toRow).filter
        (fun c => !(ownedStoryIds
          u (insertPhase u S (deletePhase u db))).contains c.storyId)).map
      ChapterRow.id = _
  simp only [ownedStoryIds_after u S db]
  rw [filter_append_eq_left _ _ _
    (fun r hr => by
      rw [survivor_filter_nil u S db fr ChapterRow.storyId db.chapters
        wf.chapFK r hr]
      rfl)
    (fun r hr => by
      obtain ⟨c, hc, rfl⟩ := List.mem_map.mp hr
      show (!(S.stories.map Story.id).contains c.storyId) = false
      rw [contains_true (sc.scChapters c hc)]
      rfl)]
  rfl

/-- A post of a well-formed fresh self-contained snapshot keeps the database
well formed and the snapshot fresh for it, so a second identical post meets
the same hypotheses. -/
theorem dbPost_preserves (u : String) (S : Snapshot) (db : DB) (wf : db.Wf)
    (fr : Fresh u S db) (sc : S.SelfContained) :
    (dbPost u S db).Wf ∧ Fresh u S (dbPost u S db) := by
  rw [dbPost_eq]
  constructor
  · refine ⟨?_, ?_, ?_, ?_, ?_, ?_, ?_, ?_, ?_, ?_, ?_, ?_, ?_, ?_, ?_, ?_, ?_⟩
    · intro c hc
      rw [storyIdsAll_after]
      exact childFK_after u S db Character.storyId db.characters S.characters
        wf.charFK sc.scCharacters c hc
    · intro l hl
      rw [storyIdsAll_after]
      exact childFK_after u S db Location.storyId db.locations S.locations
        wf.locFK sc.scLocations l hl
    · intro e he
      rw [storyIdsAll_after]
      exact childFK_after u S db EventRow.storyId db.events
        (S.events.map TimelineEvent.toRow) wf.eventFK
        (fun r hr => by
          obtain ⟨e0, he0, rfl⟩ := List.mem_map.mp hr
          exact sc.scEvents e0 he0) e he
    · intro r hr
      rw [storyIdsAll_after]
      exact childFK_after u S db CharacterRelationship.storyId
        db.relationships S.relationships wf.relFK sc.scRelationships r hr
    · intro l hl
      rw [storyIdsAll_after]
      exact childFK_after u S db LoreRow.storyId db.loreEntries
        (S.loreEntries.map LoreEntry.toRow) wf.loreFK
        (fun r hr => by
          obtain ⟨l0, hl0, rfl⟩ := List.mem_map.mp hr
          exact sc.scLore l0 hl0) l hl
    · intro g hg
      rw [storyIdsAll_after]
      exact childFK_after u S db IdeaGroup.storyId db.ideaGroups S.ideaGroups
        wf.groupFK sc.scGroups g hg
    · intro i hi
      rw [storyIdsAll_after]
      exact childFK_after u S db IdeaRow.storyId db.ideaCards
        (S.ideaCards.map IdeaCard.toRow) wf.ideaFK
        (fun r hr => by
          obtain ⟨i0, hi0, rfl⟩ := List.mem_map.mp hr
          exact sc.scIdeas i0 hi0) i hi
    · intro c hc
      rw [storyIdsAll_after]
      exact childFK_after u S db ChapterRow.storyId db.chapters
        (S.chapters.map Chapter.toRow) wf.chapFK
        (fun r hr => by
          obtain ⟨c0, hc0, rfl⟩ := List.mem_map.mp hr
          exact sc.scChapters c0 hc0) c hc
    · intro t ht
      rw [storyIdsAll_after]
      exact childFK_after u S db Tag.storyId db.tags S.tags wf.tagFK
        sc.scTags t ht
    · intro p hp
      rw [eventIdsAll_after]
      exact joinFK_after (ownedStoryIds u db) db.eventCharacters db.events
        EventRow.id EventRow.storyId TimelineEvent.id
        TimelineEvent.characterIds S.events wf.evJoinFK p hp
    · intro p hp
      rw [loreIdsAll_after]
      exact joinFK_after (ownedStoryIds u db) db.loreCharacters db.loreEntries
        LoreRow.id LoreRow.storyId LoreEntry.id
        LoreEntry.relatedCharacterIds S.loreEntries wf.loreChJoinFK p hp
    · intro p hp
      rw [loreIdsAll_after]
      exact joinFK_after (ownedStoryIds u db) db.loreLocations db.loreEntries
        LoreRow.id LoreRow.storyId LoreEntry.id
        LoreEntry.relatedLocationIds S.loreEntries wf.loreLocJoinFK p hp
    · intro p hp
      rw [loreIdsAll_after]
      exact joinFK_after (ownedStoryIds u db) db.loreEvents db.loreEntries
        LoreRow.id LoreRow.storyId LoreEntry.id
        LoreEntry.relatedEventIds S.loreEntries wf.loreEvJoinFK p hp
    · intro p hp
      rw [ideaIdsAll_after]
      exact joinFK_after (ownedStoryIds u db) db.ideaCharacters db.ideaCards
        IdeaRow.id IdeaRow.storyId IdeaCard.id
        IdeaCard.relatedCharacterIds S.ideaCards wf.ideaChJoinFK p hp
    · intro p hp
      rw [ideaIdsAll_after]
      exact joinFK_after (ownedStoryIds u db) db.ideaLocations db.ideaCards
        IdeaRow.id IdeaRow.storyId IdeaCard.id
        IdeaCard.relatedLocationIds S.ideaCards wf.ideaLocJoinFK p hp
    · intro p hp
      rw [chapterIdsAll_after]
      exact joinFK_after (ownedStoryIds u db) db.chapterCharacters db.chapters
        ChapterRow.id ChapterRow.storyId Chapter.id Chapter.characterIds
        S.chapters wf.chapChJoinFK p hp
    · intro p hp
      rw [chapterIdsAll_after]
      exact joinFK_after (ownedStoryIds u db) db.chapterLocations db.chapters
        ChapterRow.id ChapterRow.storyId Chapter.id Chapter.locationIds
        S.chapters wf.chapLocJoinFK p hp
  · refine ⟨?_, ?_, ?_, ?_, ?_⟩
    · intro s hs
      rw [foreignStoryIds_after]
      exact fr.freshStories s hs
    · intro e he
      rw [foreignEventIds_after u S db wf fr sc]
      exact fr.freshEvents e he
    · intro l hl
      rw [foreignLoreIds_after u S db wf fr sc]
      exact fr.freshLore l hl
    · intro i hi
      rw [foreignIdeaIds_after u S db wf fr sc]
      exact fr.freshIdeas i hi
    · intro c hc
      rw [foreignChapterIds_after u S db wf fr sc]
      exact fr.freshChapters c hc

/-- C9.  Idempotent push: saving a snapshot twice in succession leaves the
GET-retrievable snapshot identical to saving it once, and the save replaces
the caller's stored snapshot entirely (the retrieved state is determined by
the posted snapshot alone, not merged with prior data). -/
theorem C9_idempotent_push (u : String) (S : Snapshot) (db : DB) (wf : db.Wf)
    (fr : Fresh u S db) (sc : S.SelfContained) (nd : S.NodupJoinIds) :
    dbGet u (dbPost u S (dbPost u S db)) = dbGet u (dbPost u S db)
    ∧ dbGet u (dbPost u S db) = S.asSaved u := by
  have h1 := dbGet_dbPost u S db wf fr sc nd
  obtain ⟨wf2, fr2⟩ := dbPost_preserves u S db wf fr sc
  have h2 := dbGet_dbPost u S (dbPost u S db) wf2 fr2 sc nd
  exact ⟨h2.trans h1.symm, h1⟩

/-- A self-contained snapshot with one entity of each type, exercising every
join table. -/
def snapC9 : Snapshot :=
  { stories := [sampleStory "s1"]
    characters := [sampleCharacter "c1" "s1"]
    locations := [sampleLocation "l1" "s1"]
    events := [{ sampleEvent "e1" "s1" with characterIds := ["c1"] }]
    relationships := [sampleRelationship "r1" "s1" "c1" "c1"]
    loreEntries := [{ sampleLore "lo1" "s1" with
      relatedCharacterIds := ["c1"], relatedLocationIds := ["l1"]
      relatedEventIds := ["e1"] }]
    ideaGroups := [sampleIdeaGroup "g1" "s1"]
    ideaCards := [{ sampleIdeaCard "i1" "s1" with
      tags := ["keep"], relatedCharacterIds := ["c1"] }]
    chapters := [{ sampleChapter "ch1" "s1" with
      characterIds := ["c1"], locationIds := ["l1"] }]
    tags := [sampleTag "t1" "s1"] }

/-- Witness for C9: posting `snapC9` once or twice into the empty database
yields the same retrievable snapshot, namely `snapC9` as saved. -/
theorem C9_idempotent_push_witness :
    dbGet "u9" (dbPost "u9" snapC9 (dbPost "u9" snapC9 emptyDB))
      = dbGet "u9" (dbPost "u9" snapC9 emptyDB)
    ∧ dbGet "u9" (dbPost "u9" snapC9 emptyDB) = snapC9.asSaved "u9" :=
  C9_idempotent_push "u9" snapC9 emptyDB
    (by constructor <;> decide)
    (by constructor <;> decide)
    (by constructor <;> decide)
    (by constructor <;> decide)

/-- C2.  Adoption: on a successful pull whose snapshot is empty while the
local store has data, the reconciliation leaves the local store unchanged and
issues exactly one push carrying the local export; saving that export to a
well-formed fresh database leaves the server retrievable with exactly the
local store's stories. -/
theorem C2_adoption (server : Snapshot) (now : Int) (st : CoordState)
    (u : String) (db : DB)
    (hse : hasData server = false)
    (hld : hasData st.store.exportData = true)
    (wf : db.Wf) (fr : Fresh u st.store.exportData db)
    (sc : (st.store.exportData).SelfContained)
    (nd : (st.store.exportData).NodupJoinIds) :
    (loadUserData (PullOutcome.ok server) now st).1.store = st.store
    ∧ (loadUserData (PullOutcome.ok server) now st).2 = [st.store.exportData]
    ∧ (dbGet u (dbPost u st.store.exportData db)).stories.length
        = st.store.stories.length := by
  refine ⟨?_, ?_, ?_⟩
  · simp [loadUserData, hse, hld]
  · simp [loadUserData, hse, hld]
  · rw [dbGet_dbPost u st.store.exportData db wf fr sc nd]
    simp [Snapshot.asSaved, StoreState.exportData]

/-- Witness for C2: two local stories against an empty server snapshot and an
empty database are pushed once and retrievable afterwards, count preserved. -/
theorem C2_adoption_witness :
    (loadUserData (PullOutcome.ok Snapshot.empty) 0 coordTwoLocal).2
      = [coordTwoLocal.store.exportData]
    ∧ (dbGet "u0" (dbPost "u0" coordTwoLocal.store.exportData emptyDB)).stories.length
        = coordTwoLocal.store.stories.length :=
  ⟨(C2_adoption Snapshot.empty 0 coordTwoLocal "u0" emptyDB (by decide)
      (by decide) (by constructor <;> decide) (by constructor <;> decide)
      (by constructor <;> decide) (by constructor <;> decide)).2.1,
   (C2_adoption Snapshot.empty 0 coordTwoLocal "u0" emptyDB (by decide)
      (by decide) (by constructor <;> decide) (by constructor <;> decide)
      (by constructor <;> decide) (by constructor <;> decide)).2.2⟩

end StoryBoard
